import Mathlib

/-!
Shallow embedding of the task dispatch engine of `warpdotdev/oz_workspace_agent`
(component `agent-control-center`), covering the data model (`src-tauri/src/models.rs`),
the dispatcher (`src-tauri/src/task_dispatch.rs`) and the record store it calls.

Conventions of the embedding:
* `Uuid` values are modelled as `Nat`; `Uuid::new_v4()` draws from a fresh-id counter
  carried in the store state.
* `DateTime<Utc>` values are modelled as `Nat`; each `Utc::now()` call reads a clock
  carried in the store state and advances it.
* Rust strings are modelled as Lean `String`, manipulated through their character list
  (`String.data`); byte positions use `Char.utf8Size` so that Rust's byte-indexed
  operations (`str::len`, byte slicing) are reproduced exactly.
* A Rust panic in a pure helper is modelled as `Option.none`.
* The dispatcher methods mutate the store behind `&self`; they are embedded as functions
  from a store state to (result, post store state, broadcast `TaskEvent`s).  When a method
  returns `Err` after having already performed store writes, the returned state keeps
  those writes, as the Rust code does.
-/

namespace AgentCC

/-! ## Data model (`models.rs`) -/

/-- `AgentStatus` (models.rs:13). -/
inductive AgentStatus
  | Running
  | Idle
  | Paused
  | Error
deriving DecidableEq, Repr

/-- `TaskPriority` (models.rs:33). -/
inductive TaskPriority
  | Low
  | Medium
  | High
  | Critical
deriving DecidableEq, Repr

/-- `TaskStatus` (models.rs:49). -/
inductive TaskStatus
  | Pending
  | Running
  | Completed
  | Failed
  | Cancelled
deriving DecidableEq, Repr

/-- `EventType` (models.rs:66). -/
inductive EventType
  | StatusChange
  | TaskStarted
  | TaskCompleted
  | TaskFailed
  | ThoughtLog
  | DecisionTrace
  | ApiCall
  | Error
  | Warning
  | Info
deriving DecidableEq, Repr

/-- `AgentConfig` (models.rs:126); the `environment` map is modelled as an association list. -/
structure AgentConfig where
  endpoint : Option String := none
  timeout_seconds : Option Nat := none
  max_retries : Option Nat := none
  environment : List (String × String) := []
  requires_approval : Bool := false
  tags : List String := []
deriving DecidableEq, Repr

/-- `AgentStats` (models.rs:143). -/
structure AgentStats where
  tasks_completed : Nat := 0
  tasks_failed : Nat := 0
  avg_task_duration_ms : Option Nat := none
  total_api_calls : Nat := 0
  estimated_cost_cents : Nat := 0
deriving DecidableEq, Repr

/-- `Agent` (models.rs:81). -/
structure Agent where
  id : Nat
  name : String
  description : Option String := none
  status : AgentStatus := AgentStatus.Idle
  framework : String
  model : Option String := none
  config : AgentConfig := {}
  created_at : Nat := 0
  last_activity : Option Nat := none
  current_task_id : Option Nat := none
  stats : AgentStats := {}
deriving DecidableEq, Repr

/-- `Task` (models.rs:158). -/
structure Task where
  id : Nat
  agent_id : Nat
  title : String
  instruction : String
  status : TaskStatus := TaskStatus.Pending
  priority : TaskPriority := TaskPriority.Medium
  created_at : Nat := 0
  started_at : Option Nat := none
  completed_at : Option Nat := none
  result : Option String := none
  error : Option String := none
deriving DecidableEq, Repr

/-- `Task::new` (models.rs:184); the fresh `Uuid` and `Utc::now()` are passed explicitly. -/
def Task.new (id agent_id : Nat) (title instruction : String) (now : Nat) : Task :=
  { id := id, agent_id := agent_id, title := title, instruction := instruction,
    status := TaskStatus.Pending, priority := TaskPriority.Medium, created_at := now,
    started_at := none, completed_at := none, result := none, error := none }

/-- `ActivityEvent` (models.rs:203). -/
structure ActivityEvent where
  id : Nat
  agent_id : Nat
  task_id : Option Nat := none
  event_type : EventType
  summary : String
  details : Option String := none
  timestamp : Nat := 0
deriving DecidableEq, Repr

/-- `ActivityEvent::new` (models.rs:221); fresh `Uuid` and `Utc::now()` passed explicitly. -/
def ActivityEvent.new (id agent_id : Nat) (event_type : EventType) (summary : String)
    (now : Nat) : ActivityEvent :=
  { id := id, agent_id := agent_id, task_id := none, event_type := event_type,
    summary := summary, details := none, timestamp := now }

/-- `ActivityEvent::with_task` (models.rs:233). -/
def ActivityEvent.with_task (e : ActivityEvent) (tid : Nat) : ActivityEvent :=
  { e with task_id := some tid }

/-- `ActivityEvent::with_details` (models.rs:238). -/
def ActivityEvent.with_details (e : ActivityEvent) (d : String) : ActivityEvent :=
  { e with details := some d }

/-- `DispatchTaskRequest` (models.rs:265). -/
structure DispatchTaskRequest where
  agent_id : Nat
  title : String
  instruction : String
  priority : Option TaskPriority := none
deriving DecidableEq, Repr

/-- `DispatchTaskResponse` (models.rs:274). -/
structure DispatchTaskResponse where
  task : Task
  message : String
deriving DecidableEq, Repr

/-! ## Record store

Modelled from the spec: the `agent-control-center` storage module (`storage.rs`, the
`Storage` type with `get_agent`, `update_agent`, `create_task`, `get_task`, `update_task`,
`add_event`) is not among the provided sources; only its call sites in `task_dispatch.rs`
are.  The operations below are therefore modelled from spec section 4.2 ("Record Store"):
keyed collections of agents, tasks and events; `get`/`update` fail with NotFound when the
id is absent; `update` is a full-record replace; `createTask` fails with NotFound when the
referenced agent does not exist; `addEvent` appends and then evicts the oldest events past
the 1000-event cap (spec section 3, "retention is bounded ... eviction is FIFO by insertion
order").  The in-memory model cannot exhibit the spec's PersistenceFailure kind. -/

/-- Modelled from the spec: store error kinds (spec sections 4.2 and 7). -/
inductive StorageError
  | NotFound (what : String)
  | PersistenceFailure (msg : String)
deriving DecidableEq, Repr

/-- Modelled from the spec: the record store state.  `next_id` and `clock` are the
embedding's sources for fresh `Uuid`s and `Utc::now()` readings: a `Uuid::new_v4()`
call reads `next_id` and then `bump_id`s it, a `Utc::now()` call reads `clock` and
then `bump_clock`s it. -/
structure Storage where
  agents : List Agent := []
  tasks : List Task := []
  events : List ActivityEvent := []
  next_id : Nat := 0
  clock : Nat := 0
deriving DecidableEq, Repr

/-- Advance the fresh-id counter (the state effect of `Uuid::new_v4()`). -/
def bump_id (s : Storage) : Storage := { s with next_id := s.next_id + 1 }

/-- Advance the clock (the state effect of `Utc::now()`). -/
def bump_clock (s : Storage) : Storage := { s with clock := s.clock + 1 }

/-- Modelled from the spec: `getAgent(id)` fails with NotFound if absent. -/
def get_agent (s : Storage) (id : Nat) : Except StorageError Agent :=
  match s.agents.find? (fun a => a.id == id) with
  | some a => .ok a
  | none => .error (StorageError.NotFound "agent")

/-- Full-record replace of the agent whose id matches (helper for `update_agent`). -/
def replace_agent (s : Storage) (a : Agent) : Storage :=
  { s with agents := s.agents.map (fun x => if x.id == a.id then a else x) }

/-- Modelled from the spec: `updateAgent` fails with NotFound if the id is absent;
otherwise a full-record replace. -/
def update_agent (s : Storage) (a : Agent) : Except StorageError (Agent × Storage) :=
  if s.agents.any (fun x => x.id == a.id) then .ok (a, replace_agent s a)
  else .error (StorageError.NotFound "agent")

/-- Modelled from the spec: `createTask` fails with NotFound if the referenced agent
does not exist; otherwise inserts the task. -/
def create_task (s : Storage) (t : Task) : Except StorageError (Task × Storage) :=
  if s.agents.any (fun x => x.id == t.agent_id) then
    .ok (t, { s with tasks := s.tasks ++ [t] })
  else .error (StorageError.NotFound "agent")

/-- Modelled from the spec: `getTask(id)` fails with NotFound if absent. -/
def get_task (s : Storage) (id : Nat) : Except StorageError Task :=
  match s.tasks.find? (fun t => t.id == id) with
  | some t => .ok t
  | none => .error (StorageError.NotFound "task")

/-- Full-record replace of the task whose id matches (helper for `update_task`). -/
def replace_task (s : Storage) (t : Task) : Storage :=
  { s with tasks := s.tasks.map (fun x => if x.id == t.id then t else x) }

/-- Modelled from the spec: `updateTask` fails with NotFound if the id is absent;
otherwise a full-record replace. -/
def update_task (s : Storage) (t : Task) : Except StorageError (Task × Storage) :=
  if s.tasks.any (fun x => x.id == t.id) then .ok (t, replace_task s t)
  else .error (StorageError.NotFound "task")

/-- The event-retention cap (spec section 3: "a fixed cap, default 1000"). -/
def EVENT_CAP : Nat := 1000

/-- Modelled from the spec: `addEvent` "appends, then evicts oldest events past the
1000-event cap" (spec section 4.2); eviction is FIFO by insertion order (spec section 3). -/
def add_event (s : Storage) (e : ActivityEvent) : Storage :=
  let evs := s.events ++ [e]
  { s with events := evs.drop (evs.length - EVENT_CAP) }

/-! ## Execution pipeline pure helpers (`task_dispatch.rs:379-443`) -/

/-- Rust `str::len`: the length of the string in UTF-8 bytes. -/
def byte_len (s : String) : Nat := (s.data.map Char.utf8Size).sum

/-- First `n` bytes of a character list, as Rust byte slicing `&s[..n]` sees them:
`some` of the prefix when `n` falls on a character boundary, `none` (the panic)
when the cut would split a character's UTF-8 encoding. -/
def take_bytes : List Char → Nat → Option (List Char)
  | _, 0 => some []
  | [], _ + 1 => none
  | c :: cs, n + 1 =>
    if c.utf8Size ≤ n + 1 then (take_bytes cs (n + 1 - c.utf8Size)).map (fun l => c :: l)
    else none

/-- `truncate` (task_dispatch.rs:437): returns the string unchanged when its byte length
is at most `max_len`, else the byte slice `&s[..max_len]`.  The slice panics (modelled
as `none`) when `max_len` is not a character boundary of the string. -/
def truncate (s : String) (max_len : Nat) : Option String :=
  if byte_len s ≤ max_len then some s
  else (take_bytes s.data max_len).map String.mk

/-- `request.instruction.trim().is_empty()` (task_dispatch.rs:82): true iff every
character is whitespace.  (Rust trims Unicode `White_Space`; the model uses
`Char.isWhitespace`, which agrees on the ASCII whitespace the spec discusses.) -/
def trim_is_empty (s : String) : Bool := s.data.all Char.isWhitespace

/-- Rust `str::split_whitespace`: whitespace-separated words, no empties.  Accumulator
holds the current word reversed. -/
def split_whitespace_aux : List Char → List Char → List String
  | [], acc => if acc.isEmpty then [] else [String.mk acc.reverse]
  | c :: cs, acc =>
    if c.isWhitespace then
      if acc.isEmpty then split_whitespace_aux cs []
      else String.mk acc.reverse :: split_whitespace_aux cs []
    else split_whitespace_aux cs (c :: acc)

/-- Rust `str::split_whitespace` on a string. -/
def split_whitespace (s : String) : List String := split_whitespace_aux s.data []

/-- Rust `str::to_lowercase`, modelled with `Char.toLower` (agrees on ASCII, which is all
the stop-word and keyword-bucket comparisons use). -/
def to_lowercase (s : String) : String := String.mk (s.data.map Char.toLower)

/-- Does `needle` occur at the head of `hay`? -/
def heads_with : List Char → List Char → Bool
  | [], _ => true
  | _ :: _, [] => false
  | n :: ns, h :: hs => n == h && heads_with ns hs

/-- Does `needle` occur anywhere in `hay`?  Models Rust `str::contains` for the ASCII
needles used by `generate_mock_result` (an ASCII byte substring match coincides with a
character-level match because UTF-8 continuation bytes are non-ASCII). -/
def contains_sub (needle : List Char) : List Char → Bool
  | [] => needle.isEmpty
  | c :: cs => heads_with needle (c :: cs) || contains_sub needle cs

/-- Rust `haystack.contains(needle)` on strings. -/
def str_contains (hay needle : String) : Bool := contains_sub needle.data hay.data

/-- The stop-word list of `extract_keywords` (task_dispatch.rs:426). -/
def stopwords : List String :=
  ["the", "a", "an", "is", "are", "to", "for", "and", "or", "of", "in", "on", "at"]

/-- `extract_keywords` (task_dispatch.rs:425): split on whitespace, keep words longer
than 2 bytes, drop stop words (compared lowercased), keep the first 5. -/
def extract_keywords (text : String) : List String :=
  ((((split_whitespace text).filter (fun w => 2 < byte_len w)).filter
      (fun w => !(stopwords.contains (to_lowercase w)))).take 5)

/-- `generate_mock_thoughts` (task_dispatch.rs:379): the fixed 5-thought sequence.
`none` models the panic of `truncate instruction 50` on a non-boundary cut. -/
def generate_mock_thoughts (instruction : String) : Option (List String) :=
  let keywords := extract_keywords instruction
  (truncate instruction 50).map (fun t =>
    ["Analyzing task: " ++ t,
     "Identifying key concepts: " ++ String.intercalate ", " keywords,
     "Formulating approach based on context...",
     "Gathering relevant information...",
     "Synthesizing response..."])

/-- `generate_mock_result` (task_dispatch.rs:392): ordered keyword buckets over the
lowercased instruction; the final bucket truncates the instruction to 30 bytes, and
`none` models that truncation's panic.  (Rust's `\`-continued string literals strip the
following line's leading whitespace, which the literals below reproduce.) -/
def generate_mock_result (instruction : String) : Option String :=
  let instruction_lower := to_lowercase instruction
  if str_contains instruction_lower "analyze" || str_contains instruction_lower "review" then
    some "Analysis complete. Key findings:\n1. Identified 3 areas for improvement\n2. Performance metrics within acceptable range\n3. Recommendations documented for follow-up"
  else if str_contains instruction_lower "create" || str_contains instruction_lower "build" then
    some "Task completed successfully.\n- Created requested components\n- Validated output structure\n- Ready for review"
  else if str_contains instruction_lower "fix" || str_contains instruction_lower "resolve" then
    some "Issue resolved.\n- Root cause identified\n- Applied fix to affected areas\n- Verified solution"
  else if str_contains instruction_lower "test" || str_contains instruction_lower "verify" then
    some "Testing complete.\n- All test cases passed\n- No regressions detected\n- Coverage report generated"
  else
    (truncate instruction 30).map (fun t =>
      "Task '" ++ t ++ "' completed successfully.\nThe requested operation has been performed and results are available.")

/-! ## Dispatcher (`task_dispatch.rs:19-376`) -/

/-- `DispatchError` (task_dispatch.rs:20). -/
inductive DispatchError
  | Storage (e : StorageError)
  | AgentNotAvailable (msg : String)
  | InvalidTask (msg : String)
  | ExecutionFailed (msg : String)
deriving DecidableEq, Repr

/-- Modelled from the spec: the section 7 error taxonomy names the kind for invalid
request content (empty instruction; a task not in a cancellable state, per the section 8
property on `cancel`) `InvalidInput`.  The code realizes that kind as the
`DispatchError::InvalidTask` variant (spec sections 4.4 and 6 use the code's name
`InvalidTask` for the same conditions section 8 calls `InvalidInput`). -/
def DispatchError.is_invalid_input_kind : DispatchError → Bool
  | DispatchError.InvalidTask _ => true
  | _ => false

/-- `TaskEvent` (task_dispatch.rs:36), the broadcast notifications. -/
inductive TaskEvent
  | Started (task_id agent_id : Nat)
  | Progress (task_id : Nat) (message : String) (progress_pct : Nat)
  | ThoughtLog (task_id : Nat) (thought : String)
  | ApiCall (task_id : Nat) (endpoint : String) (duration_ms : Nat)
  | Completed (task_id : Nat) (result : String)
  | Failed (task_id : Nat) (error : String)
deriving DecidableEq, Repr

/-- Result of a dispatcher method: the `Result` value, the store state after the call
(kept also on the error paths, which in Rust leave earlier writes in place), and the
`TaskEvent`s sent on the broadcast channel, in order. -/
abbrev OpResult (α : Type) := Except DispatchError α × Storage × List TaskEvent

/-- `TaskDispatcher::dispatch` (task_dispatch.rs:67). -/
def dispatch (s : Storage) (request : DispatchTaskRequest) : OpResult DispatchTaskResponse :=
  match get_agent s request.agent_id with
  | .error e => (.error (DispatchError.Storage e), s, [])
  | .ok agent =>
    if agent.status = AgentStatus.Running then
      (.error (DispatchError.AgentNotAvailable "Agent is already running a task"), s, [])
    else if trim_is_empty request.instruction then
      -- the `warn!` on AgentStatus::Error (task_dispatch.rs:77) has no store effect
      (.error (DispatchError.InvalidTask "Task instruction cannot be empty"), s, [])
    else
      let task_id := s.next_id
      let s1 := bump_id s
      let now1 := s1.clock
      let s2 := bump_clock s1
      let task0 : Task :=
        { Task.new task_id request.agent_id request.title request.instruction now1 with
          priority := request.priority.getD TaskPriority.Medium }
      match create_task s2 task0 with
      | .error e => (.error (DispatchError.Storage e), s2, [])
      | .ok (task, s3) =>
        let now2 := s3.clock
        let s4 := bump_clock s3
        let agent1 : Agent :=
          { agent with status := AgentStatus.Running, current_task_id := some task.id,
                       last_activity := some now2 }
        match update_agent s4 agent1 with
        | .error e => (.error (DispatchError.Storage e), s4, [])
        | .ok (_, s5) =>
          let eid := s5.next_id
          let s6 := bump_id s5
          let now3 := s6.clock
          let s7 := bump_clock s6
          let ev := ((ActivityEvent.new eid request.agent_id EventType.TaskStarted
              ("Task started: " ++ request.title) now3).with_task task.id).with_details
              request.instruction
          let s8 := add_event s7 ev
          (.ok { task := task, message := "Task dispatched successfully" }, s8,
            [TaskEvent.Started task.id request.agent_id])

/-- The `progress` percentage of the thought loop (task_dispatch.rs:153), in Rust
`((i + 1) as f32 / thoughts.len() as f32 * 80.0) as u8` with `step = i + 1`.  The only
caller has `thoughts.len() = 5`, where the IEEE-754 single-precision computation is
exact: `step/5` rounds to the nearest `f32` and the subsequent multiplication by 80
rounds back to the integer `step * 16` (16, 32, 48, 64, 80), so the truncating `as u8`
cast returns exactly `step * 80 / 5`.  (At `n = 0` Rust's `0.0/0.0` is NaN and
`NaN as u8 = 0`, matching `Nat` division's `0/0 = 0`.) -/
def progress_pct (step n : Nat) : Nat := step * 80 / n

/-- The `for (i, thought) in thoughts.iter().enumerate()` loop of `simulate_execution`
(task_dispatch.rs:142-166): per thought, persist a ThoughtLog event, then broadcast a
ThoughtLog and a Progress notification.  `n` is `thoughts.len()`. -/
def thought_loop (agent_id task_id n : Nat) :
    Storage → List (Nat × String) → Storage × List TaskEvent
  | s, [] => (s, [])
  | s, (i, thought) :: rest =>
    let eid := s.next_id
    let s1 := bump_id s
    let now1 := s1.clock
    let s2 := bump_clock s1
    let ev := (ActivityEvent.new eid agent_id EventType.ThoughtLog thought now1).with_task
        task_id
    let s3 := add_event s2 ev
    let r := thought_loop agent_id task_id n s3 rest
    (r.1, TaskEvent.ThoughtLog task_id thought
          :: TaskEvent.Progress task_id ("Processing: " ++ thought) (progress_pct (i + 1) n)
          :: r.2)

/-- `TaskDispatcher::simulate_execution` (task_dispatch.rs:131).  The outer `Option` is
`none` exactly when a pure pipeline helper panics (`truncate` at a non-boundary byte). -/
def simulate_execution (s : Storage) (task_id : Nat) : Option (OpResult Task) :=
  match get_task s task_id with
  | .error e => some (.error (DispatchError.Storage e), s, [])
  | .ok task =>
    let agent_id := task.agent_id
    let now1 := s.clock
    let s1 := bump_clock s
    let task1 := { task with status := TaskStatus.Running, started_at := some now1 }
    match update_task s1 task1 with
    | .error e => some (.error (DispatchError.Storage e), s1, [])
    | .ok (task2, s2) =>
      match generate_mock_thoughts task2.instruction with
      | none => none
      | some thoughts =>
        let r := thought_loop agent_id task_id thoughts.length s2 thoughts.enum
        let s3 := r.1
        let eid := s3.next_id
        let s4 := bump_id s3
        let now2 := s4.clock
        let s5 := bump_clock s4
        let ev := ((ActivityEvent.new eid agent_id EventType.ApiCall
            "Called LLM API for response generation" now2).with_task task_id).with_details
            "POST /v1/chat/completions - 200 OK (1.2s)"
        let s6 := add_event s5 ev
        let sent2 := r.2 ++ [TaskEvent.ApiCall task_id "/v1/chat/completions" 1200]
        match generate_mock_result task2.instruction with
        | none => none
        | some result =>
          let now3 := s6.clock
          let s7 := bump_clock s6
          let task3 := { task2 with status := TaskStatus.Completed,
                                    completed_at := some now3, result := some result }
          match update_task s7 task3 with
          | .error e => some (.error (DispatchError.Storage e), s7, sent2)
          | .ok (task4, s8) =>
            match get_agent s8 agent_id with
            | .error e => some (.error (DispatchError.Storage e), s8, sent2)
            | .ok agent =>
              let now4 := s8.clock
              let s9 := bump_clock s8
              let agent1 :=
                { agent with status := AgentStatus.Idle, current_task_id := none,
                             last_activity := some now4,
                             stats := { agent.stats with
                               tasks_completed := agent.stats.tasks_completed + 1,
                               total_api_calls := agent.stats.total_api_calls + 1,
                               estimated_cost_cents := agent.stats.estimated_cost_cents + 5 } }
              match update_agent s9 agent1 with
              | .error e => some (.error (DispatchError.Storage e), s9, sent2)
              | .ok (_, s10) =>
                let eid2 := s10.next_id
                let s11 := bump_id s10
                let now5 := s11.clock
                let s12 := bump_clock s11
                let ev2 := ((ActivityEvent.new eid2 agent_id EventType.TaskCompleted
                    ("Task completed: " ++ task4.title) now5).with_task task_id).with_details
                    result
                let s13 := add_event s12 ev2
                some (.ok task4, s13, sent2 ++ [TaskEvent.Completed task_id result])

/-- `TaskDispatcher::fail_task` (task_dispatch.rs:225). -/
def fail_task (s : Storage) (task_id : Nat) (error_message : String) : OpResult Task :=
  match get_task s task_id with
  | .error e => (.error (DispatchError.Storage e), s, [])
  | .ok task =>
    let agent_id := task.agent_id
    let now1 := s.clock
    let s1 := bump_clock s
    let task1 := { task with status := TaskStatus.Failed, completed_at := some now1,
                             error := some error_message }
    match update_task s1 task1 with
    | .error e => (.error (DispatchError.Storage e), s1, [])
    | .ok (task2, s2) =>
      match get_agent s2 agent_id with
      | .error e => (.error (DispatchError.Storage e), s2, [])
      | .ok agent =>
        let now2 := s2.clock
        let s3 := bump_clock s2
        let agent1 := { agent with status := AgentStatus.Error, current_task_id := none,
                                   last_activity := some now2,
                                   stats := { agent.stats with
                                     tasks_failed := agent.stats.tasks_failed + 1 } }
        match update_agent s3 agent1 with
        | .error e => (.error (DispatchError.Storage e), s3, [])
        | .ok (_, s4) =>
          let eid := s4.next_id
          let s5 := bump_id s4
          let now3 := s5.clock
          let s6 := bump_clock s5
          let ev := ((ActivityEvent.new eid agent_id EventType.TaskFailed
              ("Task failed: " ++ task2.title) now3).with_task task_id).with_details
              error_message
          let s7 := add_event s6 ev
          (.ok task2, s7, [TaskEvent.Failed task_id error_message])

/-- `TaskDispatcher::cancel_task` (task_dispatch.rs:265). -/
def cancel_task (s : Storage) (task_id : Nat) : OpResult Task :=
  match get_task s task_id with
  | .error e => (.error (DispatchError.Storage e), s, [])
  | .ok task =>
    let agent_id := task.agent_id
    if task.status ≠ TaskStatus.Running ∧ task.status ≠ TaskStatus.Pending then
      (.error (DispatchError.InvalidTask "Can only cancel pending or running tasks"), s, [])
    else
      let now1 := s.clock
      let s1 := bump_clock s
      let task1 := { task with status := TaskStatus.Cancelled, completed_at := some now1 }
      match update_task s1 task1 with
      | .error e => (.error (DispatchError.Storage e), s1, [])
      | .ok (task2, s2) =>
        match get_agent s2 agent_id with
        | .error e => (.error (DispatchError.Storage e), s2, [])
        | .ok agent =>
          let step :=
            if agent.current_task_id = some task_id then
              update_agent (bump_clock s2)
                { agent with status := AgentStatus.Idle, current_task_id := none,
                             last_activity := some s2.clock }
            else .ok (agent, s2)
          match step with
          | .error e => (.error (DispatchError.Storage e), bump_clock s2, [])
          | .ok (_, s4) =>
            let eid := s4.next_id
            let s5 := bump_id s4
            let now3 := s5.clock
            let s6 := bump_clock s5
            let ev := (ActivityEvent.new eid agent_id EventType.Info
                ("Task cancelled: " ++ task2.title) now3).with_task task_id
            let s7 := add_event s6 ev
            (.ok task2, s7, [])

/-- `TaskDispatcher::pause_agent` (task_dispatch.rs:304). -/
def pause_agent (s : Storage) (agent_id : Nat) : OpResult Agent :=
  match get_agent s agent_id with
  | .error e => (.error (DispatchError.Storage e), s, [])
  | .ok agent =>
    if agent.status = AgentStatus.Paused then
      (.ok agent, s, [])
    else
      let now1 := s.clock
      let s1 := bump_clock s
      let agent1 := { agent with status := AgentStatus.Paused, last_activity := some now1 }
      match update_agent s1 agent1 with
      | .error e => (.error (DispatchError.Storage e), s1, [])
      | .ok (agent2, s2) =>
        let eid := s2.next_id
        let s3 := bump_id s2
        let now2 := s3.clock
        let s4 := bump_clock s3
        let ev := ActivityEvent.new eid agent_id EventType.StatusChange "Agent paused" now2
        let s5 := add_event s4 ev
        (.ok agent2, s5, [])

/-- `TaskDispatcher::resume_agent` (task_dispatch.rs:329). -/
def resume_agent (s : Storage) (agent_id : Nat) : OpResult Agent :=
  match get_agent s agent_id with
  | .error e => (.error (DispatchError.Storage e), s, [])
  | .ok agent =>
    if agent.status ≠ AgentStatus.Paused then
      (.error (DispatchError.AgentNotAvailable "Agent is not paused"), s, [])
    else
      let now1 := s.clock
      let s1 := bump_clock s
      let agent1 := { agent with status := AgentStatus.Idle, last_activity := some now1 }
      match update_agent s1 agent1 with
      | .error e => (.error (DispatchError.Storage e), s1, [])
      | .ok (agent2, s2) =>
        let eid := s2.next_id
        let s3 := bump_id s2
        let now2 := s3.clock
        let s4 := bump_clock s3
        let ev := ActivityEvent.new eid agent_id EventType.StatusChange "Agent resumed" now2
        let s5 := add_event s4 ev
        (.ok agent2, s5, [])

/-- `TaskDispatcher::reset_agent` (task_dispatch.rs:356). -/
def reset_agent (s : Storage) (agent_id : Nat) : OpResult Agent :=
  match get_agent s agent_id with
  | .error e => (.error (DispatchError.Storage e), s, [])
  | .ok agent =>
    let now1 := s.clock
    let s1 := bump_clock s
    let agent1 := { agent with status := AgentStatus.Idle, current_task_id := none,
                               last_activity := some now1 }
    match update_agent s1 agent1 with
    | .error e => (.error (DispatchError.Storage e), s1, [])
    | .ok (agent2, s2) =>
      let eid := s2.next_id
      let s3 := bump_id s2
      let now2 := s3.clock
      let s4 := bump_clock s3
      let ev := ActivityEvent.new eid agent_id EventType.StatusChange
          "Agent reset to idle state" now2
      let s5 := add_event s4 ev
      (.ok agent2, s5, [])

/-! ## Spec-side definitions -/

/-- Stated from the spec (section 8): `round(i/n * 80)`, rounding half up. -/
def spec_round_pct (i n : Nat) : Nat := (i * 80 * 2 + n) / (2 * n)

/-- The agent-side consistency condition of spec section 3: `current_task_id` is `Some`
only while the status is Running, and must reference an existing task whose `agent_id`
equals this agent's id. -/
def AgentOk (s : Storage) (a : Agent) : Prop :=
  match a.current_task_id with
  | none => True
  | some tid =>
      a.status = AgentStatus.Running ∧ ∃ t ∈ s.tasks, t.id = tid ∧ t.agent_id = a.id

instance (s : Storage) (a : Agent) : Decidable (AgentOk s a) :=
  match h : a.current_task_id with
  | none => isTrue (by unfold AgentOk; rw [h]; trivial)
  | some tid =>
      decidable_of_iff
        (a.status = AgentStatus.Running ∧ ∃ t ∈ s.tasks, t.id = tid ∧ t.agent_id = a.id)
        (by unfold AgentOk; rw [h])

/-- The store-wide invariant of spec section 8: every agent satisfies `AgentOk`. -/
def Inv (s : Storage) : Prop := ∀ a ∈ s.agents, AgentOk s a

instance (s : Storage) : Decidable (Inv s) := List.decidableBAll _ _

/-- The progress percentages carried by the Progress notifications of a broadcast
sequence, in order. -/
def progress_values (evs : List TaskEvent) : List Nat :=
  evs.filterMap (fun ev => match ev with
    | TaskEvent.Progress _ _ p => some p
    | _ => none)

/-- The thought strings carried by the ThoughtLog notifications of a broadcast
sequence, in order. -/
def thought_values (evs : List TaskEvent) : List String :=
  evs.filterMap (fun ev => match ev with
    | TaskEvent.ThoughtLog _ th => some th
    | _ => none)

/-! ## Concrete fixtures used by the closed theorems

These replay the spec section 8 example scenario: create agent "Reviewer"
(framework "custom"), dispatch `{title: "T1", instruction: "Please analyze this
module"}`, execute, and variations. -/

/-- Fixture: a freshly created idle agent. -/
def fx_agent : Agent := { id := 0, name := "Reviewer", framework := "custom" }

/-- Fixture: a store holding only `fx_agent`. -/
def fx_store0 : Storage := { agents := [fx_agent] }

/-- Fixture: the example dispatch request. -/
def fx_req : DispatchTaskRequest :=
  { agent_id := 0, title := "T1", instruction := "Please analyze this module" }

/-- Fixture: the store after dispatching `fx_req` (task 0 Pending, agent Running). -/
def fx_store1 : Storage := (dispatch fx_store0 fx_req).2.1

/-- Fixture: the task record created by the dispatch. -/
def fx_task : Task :=
  { id := 0, agent_id := 0, title := "T1", instruction := "Please analyze this module" }

/-- Fixture: the agent record while it runs task 0. -/
def fx_agent_running : Agent :=
  { id := 0, name := "Reviewer", framework := "custom", status := AgentStatus.Running,
    last_activity := some 1, current_task_id := some 0 }

/-- Fixture: the agent record after `pause_agent` on the running agent: still
referencing task 0 while Paused. -/
def fx_agent_paused : Agent :=
  { id := 0, name := "Reviewer", framework := "custom", status := AgentStatus.Paused,
    last_activity := some 3, current_task_id := some 0 }

/-- Fixture: the store after pausing the running agent. -/
def fx_store_paused : Storage := (pause_agent fx_store1 0).2.1

/-- Fixture: the full outcome of executing task 0 from `fx_store1`. -/
def fx_run : OpResult Task :=
  (simulate_execution fx_store1 0).getD
    (.error (DispatchError.ExecutionFailed "unreachable"), fx_store1, [])

/-- Fixture: the task returned by that successful execution. -/
def fx_task_done : Task :=
  match fx_run.1 with
  | .ok t => t
  | .error _ => fx_task

/-- Fixture: the store after that successful execution. -/
def fx_store2 : Storage := fx_run.2.1

/-- Fixture: the agent record after that successful execution. -/
def fx_agent_done : Agent :=
  match get_agent fx_store2 0 with
  | .ok a => a
  | .error _ => fx_agent

/-- Fixture: the outcome of re-executing the already Completed task 0. -/
def fx_rerun : OpResult Task :=
  (simulate_execution fx_store2 0).getD
    (.error (DispatchError.ExecutionFailed "unreachable"), fx_store2, [])

/-- Fixture: the task returned by the re-execution. -/
def fx_rerun_task : Task :=
  match fx_rerun.1 with
  | .ok t => t
  | .error _ => fx_task

/-- Fixture: the store after cancelling task 0 from `fx_store1`. -/
def fx_store_cancelled : Storage := (cancel_task fx_store1 0).2.1

/-- Fixture: the stored task record after that cancellation. -/
def fx_task_cancelled : Task :=
  match get_task fx_store_cancelled 0 with
  | .ok t => t
  | .error _ => fx_task

/-- Fixture: the agent record after the cancellation (reset to Idle). -/
def fx_agent_cancelled : Agent :=
  match get_agent fx_store_cancelled 0 with
  | .ok a => a
  | .error _ => fx_agent

/-- Fixture: the outcome of executing the already Cancelled task 0. -/
def fx_cx_run : OpResult Task :=
  (simulate_execution fx_store_cancelled 0).getD
    (.error (DispatchError.ExecutionFailed "unreachable"), fx_store_cancelled, [])

/-- Fixture: the task returned by executing the cancelled task. -/
def fx_cx_task : Task :=
  match fx_cx_run.1 with
  | .ok t => t
  | .error _ => fx_task

/-- Fixture: the store after executing the cancelled task. -/
def fx_cx_store : Storage := fx_cx_run.2.1

/-- Fixture: an instruction of 49 ASCII bytes followed by one 2-byte character, so
its 50th byte position falls inside a character's UTF-8 encoding. -/
def fx_bad_instruction : String := String.mk (List.replicate 49 'a' ++ ['é'])

/-- Fixture: a dispatch request carrying the panic-inducing instruction. -/
def fx_bad_req : DispatchTaskRequest :=
  { agent_id := 0, title := "T", instruction := fx_bad_instruction }

/-- Fixture: the store after dispatching the panic-inducing instruction. -/
def fx_bad_store1 : Storage := (dispatch fx_store0 fx_bad_req).2.1

/-- Fixture: a whitespace-only dispatch request. -/
def fx_ws_req : DispatchTaskRequest :=
  { agent_id := 0, title := "T", instruction := " \t " }

/-- Fixture: an activity event used by the retention theorems. -/
def fx_event : ActivityEvent :=
  { id := 0, agent_id := 0, event_type := EventType.Info, summary := "e" }

/-! ## Basic lemmas about the store primitives -/

@[simp] theorem bump_id_agents (s : Storage) : (bump_id s).agents = s.agents := rfl

@[simp] theorem bump_id_tasks (s : Storage) : (bump_id s).tasks = s.tasks := rfl

@[simp] theorem bump_id_events (s : Storage) : (bump_id s).events = s.events := rfl

@[simp] theorem bump_id_clock (s : Storage) : (bump_id s).clock = s.clock := rfl

@[simp] theorem bump_clock_agents (s : Storage) : (bump_clock s).agents = s.agents := rfl

@[simp] theorem bump_clock_tasks (s : Storage) : (bump_clock s).tasks = s.tasks := rfl

@[simp] theorem bump_clock_events (s : Storage) : (bump_clock s).events = s.events := rfl

@[simp] theorem bump_clock_next_id (s : Storage) : (bump_clock s).next_id = s.next_id := rfl

@[simp] theorem add_event_agents (s : Storage) (e : ActivityEvent) :
    (add_event s e).agents = s.agents := by simp [add_event]

@[simp] theorem add_event_tasks (s : Storage) (e : ActivityEvent) :
    (add_event s e).tasks = s.tasks := by simp [add_event]

@[simp] theorem add_event_next_id (s : Storage) (e : ActivityEvent) :
    (add_event s e).next_id = s.next_id := by simp [add_event]

@[simp] theorem add_event_clock (s : Storage) (e : ActivityEvent) :
    (add_event s e).clock = s.clock := by simp [add_event]

@[simp] theorem replace_agent_tasks (s : Storage) (a : Agent) :
    (replace_agent s a).tasks = s.tasks := rfl

@[simp] theorem replace_agent_events (s : Storage) (a : Agent) :
    (replace_agent s a).events = s.events := rfl

@[simp] theorem replace_task_agents (s : Storage) (t : Task) :
    (replace_task s t).agents = s.agents := rfl

@[simp] theorem replace_task_events (s : Storage) (t : Task) :
    (replace_task s t).events = s.events := rfl

theorem get_agent_ok {s : Storage} {id : Nat} {a : Agent}
    (h : get_agent s id = .ok a) : a ∈ s.agents ∧ a.id = id := by
  unfold get_agent at h
  cases hf : s.agents.find? (fun x => x.id == id) with
  | none => rw [hf] at h; cases h
  | some x =>
    rw [hf] at h
    cases h
    refine ⟨List.mem_of_find?_eq_some hf, ?_⟩
    have := List.find?_some hf
    simpa using this

theorem get_task_ok {s : Storage} {id : Nat} {t : Task}
    (h : get_task s id = .ok t) : t ∈ s.tasks ∧ t.id = id := by
  unfold get_task at h
  cases hf : s.tasks.find? (fun x => x.id == id) with
  | none => rw [hf] at h; cases h
  | some x =>
    rw [hf] at h
    cases h
    refine ⟨List.mem_of_find?_eq_some hf, ?_⟩
    have := List.find?_some hf
    simpa using this

theorem update_agent_of_mem {s : Storage} {a' : Agent} {x : Agent}
    (hx : x ∈ s.agents) (hid : x.id = a'.id) :
    update_agent s a' = .ok (a', replace_agent s a') := by
  unfold update_agent
  rw [if_pos]
  exact List.any_eq_true.mpr ⟨x, hx, by simp [hid]⟩

theorem update_task_of_mem {s : Storage} {t' : Task} {x : Task}
    (hx : x ∈ s.tasks) (hid : x.id = t'.id) :
    update_task s t' = .ok (t', replace_task s t') := by
  unfold update_task
  rw [if_pos]
  exact List.any_eq_true.mpr ⟨x, hx, by simp [hid]⟩

theorem find?_map_replace {α : Type} (key : α → Nat) (l : List α) (a' : α) :
    (∃ x ∈ l, key x = key a') →
    (l.map (fun y => if key y == key a' then a' else y)).find?
      (fun y => key y == key a') = some a' := by
  induction l with
  | nil => rintro ⟨x, hx, _⟩; cases hx
  | cons h t ih =>
    rintro ⟨x, hx, hid⟩
    rw [List.map_cons]
    by_cases hh : key h = key a'
    · rw [show (if key h == key a' then a' else h) = a' from by simp [hh]]
      rw [List.find?_cons_of_pos _ (by simp)]
    · rw [show (if key h == key a' then a' else h) = h from by simp [hh]]
      rw [List.find?_cons_of_neg _ (by simp [hh])]
      rcases List.mem_cons.mp hx with rfl | hx'
      · exact absurd hid hh
      · exact ih ⟨x, hx', hid⟩

theorem get_agent_replace_self {s : Storage} {a' x : Agent}
    (hx : x ∈ s.agents) (hid : x.id = a'.id) :
    get_agent (replace_agent s a') a'.id = .ok a' := by
  unfold get_agent replace_agent
  rw [show ((s.agents.map fun y => if y.id == a'.id then a' else y).find?
        (fun y => y.id == a'.id)) = some a' from
      find?_map_replace Agent.id s.agents a' ⟨x, hx, hid⟩]

theorem create_task_ok {s : Storage} {t t' : Task} {s' : Storage}
    (h : create_task s t = .ok (t', s')) :
    t' = t ∧ s' = { s with tasks := s.tasks ++ [t] } := by
  unfold create_task at h
  split at h
  · cases h; exact ⟨rfl, rfl⟩
  · cases h

theorem update_agent_ok {s : Storage} {a a' : Agent} {s' : Storage}
    (h : update_agent s a = .ok (a', s')) : a' = a ∧ s' = replace_agent s a := by
  unfold update_agent at h
  split at h
  · cases h; exact ⟨rfl, rfl⟩
  · cases h

theorem update_task_ok {s : Storage} {t t' : Task} {s' : Storage}
    (h : update_task s t = .ok (t', s')) : t' = t ∧ s' = replace_task s t := by
  unfold update_task at h
  split at h
  · cases h; exact ⟨rfl, rfl⟩
  · cases h

/-! ## Invariant preservation primitives -/

theorem agentOk_congr {s s' : Storage} {a : Agent} (ht : s'.tasks = s.tasks)
    (h : AgentOk s a) : AgentOk s' a := by
  unfold AgentOk at h ⊢
  cases hcc : a.current_task_id with
  | none => trivial
  | some tid => rw [hcc] at h; rw [ht]; exact h

theorem inv_congr {s s' : Storage} (ha : s'.agents = s.agents) (ht : s'.tasks = s.tasks)
    (h : Inv s) : Inv s' := by
  intro a hmem
  exact agentOk_congr ht (h a (ha ▸ hmem))

theorem inv_bump_id {s : Storage} (h : Inv s) : Inv (bump_id s) :=
  inv_congr rfl rfl h

theorem inv_bump_clock {s : Storage} (h : Inv s) : Inv (bump_clock s) :=
  inv_congr rfl rfl h

theorem inv_add_event {s : Storage} {e : ActivityEvent} (h : Inv s) : Inv (add_event s e) :=
  inv_congr (add_event_agents s e) (add_event_tasks s e) h

theorem agentOk_none_of_not_running {s : Storage} {a : Agent} (hok : AgentOk s a)
    (hst : a.status ≠ AgentStatus.Running) : a.current_task_id = none := by
  unfold AgentOk at hok
  cases hcc : a.current_task_id with
  | none => rfl
  | some tid => rw [hcc] at hok; exact absurd hok.1 hst

theorem inv_append_task {s : Storage} {t : Task} (h : Inv s) :
    Inv { s with tasks := s.tasks ++ [t] } := by
  intro a hmem
  have hok := h a hmem
  unfold AgentOk at hok ⊢
  cases hcc : a.current_task_id with
  | none => trivial
  | some tid =>
    rw [hcc] at hok
    obtain ⟨hrun, t0, ht0, htid, htag⟩ := hok
    exact ⟨hrun, t0, List.mem_append_left _ ht0, htid, htag⟩

theorem inv_replace_task {s : Storage} {told tnew : Task}
    (hmem : told ∈ s.tasks) (hid : tnew.id = told.id) (hag : tnew.agent_id = told.agent_id)
    (hnd : (s.tasks.map Task.id).Nodup) (h : Inv s) : Inv (replace_task s tnew) := by
  intro a hmem_a
  have hok := h a ((replace_task_agents s tnew) ▸ hmem_a)
  unfold AgentOk at hok ⊢
  cases hcc : a.current_task_id with
  | none => trivial
  | some tid =>
    rw [hcc] at hok
    obtain ⟨hrun, t0, ht0, htid, htag⟩ := hok
    refine ⟨hrun, ?_⟩
    by_cases hcase : t0.id = tnew.id
    · have heq : t0 = told := List.inj_on_of_nodup_map hnd ht0 hmem (by rw [hcase, hid])
      refine ⟨tnew, ?_, by rw [hid, ← heq, htid], by rw [hag, ← heq, htag]⟩
      exact List.mem_map.mpr ⟨t0, ht0, by simp [hcase]⟩
    · refine ⟨t0, ?_, htid, htag⟩
      exact List.mem_map.mpr ⟨t0, ht0, by simp [hcase]⟩

theorem inv_replace_agent_none {s : Storage} {a' : Agent}
    (hnone : a'.current_task_id = none) (h : Inv s) : Inv (replace_agent s a') := by
  intro a hmem_a
  obtain ⟨x, hx, hfx⟩ := List.mem_map.mp hmem_a
  by_cases hxa : x.id = a'.id
  · have ha : a = a' := by rw [← hfx]; simp [hxa]
    subst ha
    unfold AgentOk
    rw [hnone]
    trivial
  · have ha : a = x := by rw [← hfx]; simp [hxa]
    subst ha
    exact agentOk_congr (replace_agent_tasks s a') (h _ hx)

theorem inv_replace_agent_some {s : Storage} {a' : Agent} {tid : Nat}
    (hst : a'.status = AgentStatus.Running) (hcur : a'.current_task_id = some tid)
    (hex : ∃ t ∈ s.tasks, t.id = tid ∧ t.agent_id = a'.id)
    (h : Inv s) : Inv (replace_agent s a') := by
  intro a hmem_a
  obtain ⟨x, hx, hfx⟩ := List.mem_map.mp hmem_a
  by_cases hxa : x.id = a'.id
  · have ha : a = a' := by rw [← hfx]; simp [hxa]
    subst ha
    unfold AgentOk
    rw [hcur]
    exact ⟨hst, hex⟩
  · have ha : a = x := by rw [← hfx]; simp [hxa]
    subst ha
    exact agentOk_congr (replace_agent_tasks s a') (h _ hx)


theorem thought_loop_agents (agent_id task_id n : Nat) (l : List (Nat × String)) :
    ∀ s : Storage, (thought_loop agent_id task_id n s l).1.agents = s.agents := by
  induction l with
  | nil => intro s; rfl
  | cons p rest ih =>
    intro s
    obtain ⟨i, th⟩ := p
    simp only [thought_loop]
    rw [ih]
    simp

theorem thought_loop_tasks (agent_id task_id n : Nat) (l : List (Nat × String)) :
    ∀ s : Storage, (thought_loop agent_id task_id n s l).1.tasks = s.tasks := by
  induction l with
  | nil => intro s; rfl
  | cons p rest ih =>
    intro s
    obtain ⟨i, th⟩ := p
    simp only [thought_loop]
    rw [ih]
    simp

theorem replace_task_ids (s : Storage) (t : Task) :
    (replace_task s t).tasks.map Task.id = s.tasks.map Task.id := by
  unfold replace_task
  rw [List.map_map]
  apply List.map_congr_left
  intro x hx
  by_cases hc : x.id = t.id
  · simp [Function.comp, hc]
  · simp [Function.comp, hc]

theorem reset_agent_inv (s : Storage) (aid : Nat) (h : Inv s) :
    Inv (reset_agent s aid).2.1 := by
  simp only [reset_agent]
  split
  · exact h
  next agent hA =>
    split
    · exact inv_bump_clock h
    next p hU =>
      obtain ⟨rfl, rfl⟩ := update_agent_ok hU
      exact inv_add_event (inv_bump_clock (inv_bump_id
        (inv_replace_agent_none rfl (inv_bump_clock h))))

theorem resume_agent_inv (s : Storage) (aid : Nat) (h : Inv s) :
    Inv (resume_agent s aid).2.1 := by
  simp only [resume_agent]
  split
  · exact h
  next agent hA =>
    obtain ⟨hmem, hid⟩ := get_agent_ok hA
    split
    · exact h
    next hP =>
      push_neg at hP
      have hnone : agent.current_task_id = none :=
        agentOk_none_of_not_running (h agent hmem) (by rw [hP]; intro hc; cases hc)
      split
      · exact inv_bump_clock h
      next p hU =>
        obtain ⟨rfl, rfl⟩ := update_agent_ok hU
        exact inv_add_event (inv_bump_clock (inv_bump_id
          (inv_replace_agent_none hnone (inv_bump_clock h))))

theorem fail_task_inv (s : Storage) (tid : Nat) (msg : String)
    (hnd : (s.tasks.map Task.id).Nodup) (h : Inv s) : Inv (fail_task s tid msg).2.1 := by
  simp only [fail_task]
  split
  · exact h
  next task hT =>
    obtain ⟨hmem, hidt⟩ := get_task_ok hT
    split
    · exact inv_bump_clock h
    next p hU =>
      obtain ⟨rfl, rfl⟩ := update_task_ok hU
      have h2 : Inv (replace_task (bump_clock s)
          { task with status := TaskStatus.Failed, completed_at := some s.clock,
                      error := some msg }) :=
        inv_replace_task hmem rfl rfl hnd (inv_bump_clock h)
      split
      · exact h2
      next agent hA =>
        split
        · exact inv_bump_clock h2
        next p2 hU2 =>
          obtain ⟨rfl, rfl⟩ := update_agent_ok hU2
          exact inv_add_event (inv_bump_clock (inv_bump_id
            (inv_replace_agent_none rfl (inv_bump_clock h2))))


theorem inv_replace_task' {s : Storage} {tnew : Task}
    (hex : ∃ told ∈ s.tasks, tnew.id = told.id ∧ tnew.agent_id = told.agent_id)
    (hnd : (s.tasks.map Task.id).Nodup) (h : Inv s) : Inv (replace_task s tnew) := by
  obtain ⟨told, hmem, hid, hag⟩ := hex
  exact inv_replace_task hmem hid hag hnd h

theorem cancel_task_inv (s : Storage) (tid : Nat)
    (hnd : (s.tasks.map Task.id).Nodup) (h : Inv s) : Inv (cancel_task s tid).2.1 := by
  simp only [cancel_task]
  split
  · exact h
  next task hT =>
    obtain ⟨hmem, hidt⟩ := get_task_ok hT
    split
    · exact h
    split
    · exact inv_bump_clock h
    next p hU =>
      obtain ⟨rfl, rfl⟩ := update_task_ok hU
      have h2 : Inv (replace_task (bump_clock s)
          { task with status := TaskStatus.Cancelled, completed_at := some s.clock }) :=
        inv_replace_task hmem rfl rfl hnd (inv_bump_clock h)
      split
      · exact h2
      next agent hA =>
        split
        · exact inv_bump_clock h2
        next p2 hS =>
          split at hS
          · obtain ⟨rfl, rfl⟩ := update_agent_ok hS
            exact inv_add_event (inv_bump_clock (inv_bump_id
              (inv_replace_agent_none rfl (inv_bump_clock h2))))
          · cases hS
            exact inv_add_event (inv_bump_clock (inv_bump_id h2))

theorem dispatch_inv (s : Storage) (req : DispatchTaskRequest) (h : Inv s) :
    Inv (dispatch s req).2.1 := by
  simp only [dispatch]
  split
  · exact h
  next agent hA =>
    obtain ⟨hmemA, hidA⟩ := get_agent_ok hA
    split
    · exact h
    split
    · exact h
    split
    · exact inv_bump_clock (inv_bump_id h)
    next p hC =>
      obtain ⟨rfl, rfl⟩ := create_task_ok hC
      have h3 : Inv { bump_clock (bump_id s) with
          tasks := (bump_clock (bump_id s)).tasks ++
            [{ Task.new s.next_id req.agent_id req.title req.instruction
                 (bump_id s).clock with
               priority := req.priority.getD TaskPriority.Medium }] } :=
        inv_append_task (inv_bump_clock (inv_bump_id h))
      split
      · exact inv_bump_clock h3
      next p2 hU =>
        obtain ⟨rfl, rfl⟩ := update_agent_ok hU
        refine inv_add_event (inv_bump_clock (inv_bump_id
          (inv_replace_agent_some rfl rfl ?_ (inv_bump_clock h3))))
        refine ⟨{ Task.new s.next_id req.agent_id req.title req.instruction
                    (bump_id s).clock with
                  priority := req.priority.getD TaskPriority.Medium }, ?_, rfl, ?_⟩
        · exact List.mem_append_right _ (List.mem_singleton.mpr rfl)
        · exact hidA.symm

theorem simulate_execution_inv (s : Storage) (tid : Nat)
    (hnd : (s.tasks.map Task.id).Nodup) (h : Inv s) :
    ∀ r, simulate_execution s tid = some r → Inv r.2.1 := by
  intro r hr
  simp only [simulate_execution] at hr
  split at hr
  · cases hr; exact h
  next task hT =>
    obtain ⟨hmem, hidt⟩ := get_task_ok hT
    split at hr
    · cases hr; exact inv_bump_clock h
    next p hU =>
      obtain ⟨rfl, rfl⟩ := update_task_ok hU
      have h2 : Inv (replace_task (bump_clock s)
          { task with status := TaskStatus.Running, started_at := some s.clock }) :=
        inv_replace_task hmem rfl rfl hnd (inv_bump_clock h)
      split at hr
      · exact Option.noConfusion hr
      next thoughts hG =>
        split at hr
        · exact Option.noConfusion hr
        next result hR =>
          split at hr
          · cases hr
            exact inv_bump_clock (inv_add_event (inv_bump_clock (inv_bump_id
              (inv_congr (thought_loop_agents _ _ _ _ _) (thought_loop_tasks _ _ _ _ _) h2))))
          next p2 hU2 =>
            obtain ⟨rfl, rfl⟩ := update_task_ok hU2
            split at hr
            · cases hr
              refine inv_replace_task'
                ⟨{ task with status := TaskStatus.Running, started_at := some s.clock }, ?_, rfl, rfl⟩ ?_ ?_
              · simp only [bump_clock_tasks, add_event_tasks, bump_id_tasks,
                  thought_loop_tasks]
                exact List.mem_map.mpr ⟨task, hmem, by simp⟩
              · simp only [bump_clock_tasks, add_event_tasks, bump_id_tasks,
                  thought_loop_tasks]
                rw [replace_task_ids]
                exact hnd
              · exact inv_bump_clock (inv_add_event (inv_bump_clock (inv_bump_id
                  (inv_congr (thought_loop_agents _ _ _ _ _)
                    (thought_loop_tasks _ _ _ _ _) h2))))
            next agent hA =>
              split at hr
              · cases hr
                refine inv_bump_clock (inv_replace_task'
                  ⟨{ task with status := TaskStatus.Running, started_at := some s.clock }, ?_, rfl, rfl⟩ ?_ ?_)
                · simp only [bump_clock_tasks, add_event_tasks, bump_id_tasks,
                    thought_loop_tasks]
                  exact List.mem_map.mpr ⟨task, hmem, by simp⟩
                · simp only [bump_clock_tasks, add_event_tasks, bump_id_tasks,
                    thought_loop_tasks]
                  rw [replace_task_ids]
                  exact hnd
                · exact inv_bump_clock (inv_add_event (inv_bump_clock (inv_bump_id
                    (inv_congr (thought_loop_agents _ _ _ _ _)
                      (thought_loop_tasks _ _ _ _ _) h2))))
              next p3 hU3 =>
                obtain ⟨rfl, rfl⟩ := update_agent_ok hU3
                cases hr
                refine inv_add_event (inv_bump_clock (inv_bump_id
                  (inv_replace_agent_none rfl (inv_bump_clock (inv_replace_task'
                    ⟨{ task with status := TaskStatus.Running, started_at := some s.clock }, ?_, rfl, rfl⟩ ?_ ?_)))))
                · simp only [bump_clock_tasks, add_event_tasks, bump_id_tasks,
                    thought_loop_tasks]
                  exact List.mem_map.mpr ⟨task, hmem, by simp⟩
                · simp only [bump_clock_tasks, add_event_tasks, bump_id_tasks,
                    thought_loop_tasks]
                  rw [replace_task_ids]
                  exact hnd
                · exact inv_bump_clock (inv_add_event (inv_bump_clock (inv_bump_id
                    (inv_congr (thought_loop_agents _ _ _ _ _)
                      (thought_loop_tasks _ _ _ _ _) h2))))


/-! ## Event-log lemmas -/

theorem add_event_events (s : Storage) (e : ActivityEvent) :
    (add_event s e).events = (s.events ++ [e]).drop ((s.events.length + 1) - EVENT_CAP) := by
  unfold add_event
  simp [List.length_append]

theorem add_event_events_length (s : Storage) (e : ActivityEvent) :
    (add_event s e).events.length ≤ EVENT_CAP ∨
      ((add_event s e).events.length = s.events.length + 1 ∧
        s.events.length + 1 ≤ EVENT_CAP) := by
  rw [add_event_events]
  rw [List.length_drop, List.length_append]
  by_cases hc : s.events.length + 1 ≤ EVENT_CAP
  · right
    simp only [List.length_singleton]
    omega
  · left
    simp only [List.length_singleton]
    omega

theorem foldl_add_event (l : List ActivityEvent) :
    ∀ s : Storage, s.events.length ≤ EVENT_CAP →
      (l.foldl add_event s).events =
        (s.events ++ l).drop ((s.events.length + l.length) - EVENT_CAP) := by
  induction l with
  | nil =>
    intro s hs
    simp only [List.foldl_nil, List.length_nil, Nat.add_zero, List.append_nil]
    rw [show s.events.length - EVENT_CAP = 0 from by omega, List.drop_zero]
  | cons e rest ih =>
    intro s hs
    rw [List.foldl_cons]
    have hlen : (add_event s e).events.length ≤ EVENT_CAP := by
      rcases add_event_events_length s e with hc | ⟨hc1, hc2⟩
      · exact hc
      · omega
    rw [ih (add_event s e) hlen, add_event_events]
    have hj : (s.events.length + 1) - EVENT_CAP ≤ s.events.length := by
      have : (1 : Nat) ≤ EVENT_CAP := by norm_num [EVENT_CAP]
      omega
    have hlen2 : ((s.events ++ [e]).drop ((s.events.length + 1) - EVENT_CAP)).length
        = (s.events.length + 1) - ((s.events.length + 1) - EVENT_CAP) := by
      rw [List.length_drop, List.length_append, List.length_singleton]
    rw [hlen2]
    rw [show ((s.events ++ [e]).drop ((s.events.length + 1) - EVENT_CAP)) ++ rest
        = ((s.events ++ [e]) ++ rest).drop ((s.events.length + 1) - EVENT_CAP) from
      (List.drop_append_of_le_length (by
        rw [List.length_append, List.length_singleton]; omega)).symm]
    rw [List.drop_drop]
    rw [List.append_assoc, List.singleton_append]
    have hE : EVENT_CAP = 1000 := rfl
    apply congrArg (fun n => List.drop n (s.events ++ e :: rest))
    simp only [List.length_cons]
    omega

theorem add_event_suffix {s : Storage} {pre lnew : List ActivityEvent} {e : ActivityEvent}
    (hs : s.events = pre ++ lnew) (hl : lnew.length + 1 ≤ EVENT_CAP) :
    ∃ pre2, (add_event s e).events = pre2 ++ (lnew ++ [e]) := by
  refine ⟨pre.drop ((s.events.length + 1) - EVENT_CAP), ?_⟩
  rw [add_event_events, hs]
  rw [show (pre ++ lnew) ++ [e] = pre ++ (lnew ++ [e]) from by rw [List.append_assoc]]
  refine List.drop_append_of_le_length ?_
  rw [List.length_append]
  omega


theorem thought_loop_sent (aid tid n : Nat) (l : List (Nat × String)) :
    ∀ s : Storage, (thought_loop aid tid n s l).2 =
      (l.map (fun p => [TaskEvent.ThoughtLog tid p.2,
        TaskEvent.Progress tid ("Processing: " ++ p.2) (progress_pct (p.1 + 1) n)])).flatten := by
  induction l with
  | nil => intro s; rfl
  | cons p rest ih =>
    intro s
    obtain ⟨i, th⟩ := p
    simp only [thought_loop, List.map_cons, List.flatten]
    rw [ih]
    rfl

theorem thought_loop_suffix (aid tid n : Nat) (l : List (Nat × String)) :
    ∀ (s : Storage) (pre lnew : List ActivityEvent),
      s.events = pre ++ lnew → lnew.length + l.length ≤ EVENT_CAP →
      ∃ pre2 lth, (thought_loop aid tid n s l).1.events = pre2 ++ (lnew ++ lth) ∧
        lth.map (fun e => (e.event_type, e.task_id, e.summary)) =
          l.map (fun p => (EventType.ThoughtLog, some tid, p.2)) := by
  induction l with
  | nil =>
    intro s pre lnew hs hb
    exact ⟨pre, [], by simpa using hs, rfl⟩
  | cons p rest ih =>
    intro s pre lnew hs hb
    obtain ⟨i, th⟩ := p
    simp only [thought_loop]
    have hs2 : (bump_clock (bump_id s)).events = pre ++ lnew := hs
    have hb1 : lnew.length + 1 ≤ EVENT_CAP := by
      simp only [List.length_cons] at hb
      omega
    obtain ⟨pre2, hpre2⟩ := add_event_suffix (e :=
      (ActivityEvent.new s.next_id aid EventType.ThoughtLog th
        (bump_id s).clock).with_task tid) hs2 hb1
    obtain ⟨pre3, lth, hev, hmap⟩ := ih
      (add_event (bump_clock (bump_id s))
        ((ActivityEvent.new s.next_id aid EventType.ThoughtLog th
          (bump_id s).clock).with_task tid))
      pre2
      (lnew ++ [(ActivityEvent.new s.next_id aid EventType.ThoughtLog th
          (bump_id s).clock).with_task tid])
      hpre2
      (by simp only [List.length_append, List.length_singleton, List.length_cons,
            List.length_nil] at hb ⊢
          omega)
    refine ⟨pre3,
      ((ActivityEvent.new s.next_id aid EventType.ThoughtLog th
          (bump_id s).clock).with_task tid) :: lth, ?_, ?_⟩
    · rw [hev, List.append_assoc, List.singleton_append]
    · simp only [List.map_cons, hmap, List.map_cons]
      rfl


theorem get_agent_congr {s s' : Storage} (h : s'.agents = s.agents) (i : Nat) :
    get_agent s' i = get_agent s i := by
  unfold get_agent
  rw [h]

theorem get_task_congr {s s' : Storage} (h : s'.tasks = s.tasks) (i : Nat) :
    get_task s' i = get_task s i := by
  unfold get_task
  rw [h]

theorem get_task_replace_self {s : Storage} {t' x : Task}
    (hx : x ∈ s.tasks) (hid : x.id = t'.id) :
    get_task (replace_task s t') t'.id = .ok t' := by
  unfold get_task replace_task
  rw [show ((s.tasks.map fun y => if y.id == t'.id then t' else y).find?
        (fun y => y.id == t'.id)) = some t' from
      find?_map_replace Task.id s.tasks t' ⟨x, hx, hid⟩]

theorem get_agent_error {s : Storage} {i : Nat} {e : StorageError}
    (h : get_agent s i = .error e) : e = StorageError.NotFound "agent" := by
  unfold get_agent at h
  cases hf : s.agents.find? (fun a => a.id == i) with
  | none => rw [hf] at h; cases h; rfl
  | some a => rw [hf] at h; cases h

theorem get_task_error {s : Storage} {i : Nat} {e : StorageError}
    (h : get_task s i = .error e) : e = StorageError.NotFound "task" := by
  unfold get_task at h
  cases hf : s.tasks.find? (fun t => t.id == i) with
  | none => rw [hf] at h; cases h; rfl
  | some t => rw [hf] at h; cases h

theorem generate_mock_thoughts_length {ins : String} {ths : List String}
    (h : generate_mock_thoughts ins = some ths) : ths.length = 5 := by
  unfold generate_mock_thoughts at h
  cases htr : truncate ins 50 with
  | none => rw [htr] at h; cases h
  | some tr => rw [htr] at h; cases h; rfl


theorem update_task_ne_error {s : Storage} {t x : Task} {e : StorageError}
    (hx : x ∈ s.tasks) (h : x.id = t.id) : update_task s t ≠ .error e := by
  rw [update_task_of_mem hx h]
  exact fun hc => Except.noConfusion hc

theorem update_agent_ne_error {s : Storage} {a x : Agent} {e : StorageError}
    (hx : x ∈ s.agents) (h : x.id = a.id) : update_agent s a ≠ .error e := by
  rw [update_agent_of_mem hx h]
  exact fun hc => Except.noConfusion hc

theorem get_agent_error_absurd {s w : Storage} {i : Nat} {a : Agent} {e : StorageError}
    (hA : get_agent s i = .ok a) (hw : w.agents = s.agents)
    (h : get_agent w i = .error e) : False := by
  rw [get_agent_congr hw, hA] at h
  cases h

theorem get_agent_ok_eq {s w : Storage} {i : Nat} {a b : Agent}
    (hA : get_agent s i = .ok a) (hw : w.agents = s.agents)
    (h : get_agent w i = .ok b) : b = a := by
  rw [get_agent_congr hw, hA] at h
  cases h
  rfl

theorem get_task_from_map {w : Storage} {t x : Task} {i : Nat} (l : List Task)
    (hw : w.tasks = l.map (fun y => if y.id == t.id then t else y))
    (hx : x ∈ l) (hid : x.id = t.id) (hi : i = t.id) : get_task w i = .ok t := by
  unfold get_task
  rw [hi, hw]
  rw [show ((l.map fun y => if y.id == t.id then t else y).find?
        (fun y => y.id == t.id)) = some t from
      find?_map_replace Task.id l t ⟨x, hx, hid⟩]

theorem get_agent_from_map {w : Storage} {a x : Agent} {i : Nat} (l : List Agent)
    (hw : w.agents = l.map (fun y => if y.id == a.id then a else y))
    (hx : x ∈ l) (hid : x.id = a.id) (hi : i = a.id) : get_agent w i = .ok a := by
  unfold get_agent
  rw [hi, hw]
  rw [show ((l.map fun y => if y.id == a.id then a else y).find?
        (fun y => y.id == a.id)) = some a from
      find?_map_replace Agent.id l a ⟨x, hx, hid⟩]

/-- The complete observable behaviour of a successful `simulate_execution` run:
the sequence of simulated events it persists and broadcasts, and the final task and
agent records it stores (task_dispatch.rs:131-222). -/
theorem simulate_execution_ok_shape (s : Storage) (tid : Nat) (t : Task) (a : Agent)
    (hT : get_task s tid = .ok t) (hA : get_agent s t.agent_id = .ok a) :
    ∀ t' s' sent, simulate_execution s tid = some (.ok t', s', sent) →
      ∃ ths result,
        generate_mock_thoughts t.instruction = some ths ∧
        generate_mock_result t.instruction = some result ∧
        t'.status = TaskStatus.Completed ∧
        t'.started_at = some s.clock ∧
        (∃ c, t'.completed_at = some c) ∧
        t'.result = some result ∧
        t'.id = t.id ∧ t'.agent_id = t.agent_id ∧ t'.instruction = t.instruction ∧
        get_task s' tid = .ok t' ∧
        (∃ a2, get_agent s' t.agent_id = .ok a2 ∧
          a2.status = AgentStatus.Idle ∧ a2.current_task_id = none ∧
          a2.stats.tasks_completed = a.stats.tasks_completed + 1 ∧
          a2.stats.total_api_calls = a.stats.total_api_calls + 1 ∧ a2.id = a.id) ∧
        (∃ pre lth evApi evDone,
          s'.events = pre ++ (lth ++ [evApi, evDone]) ∧
          lth.map (fun e => (e.event_type, e.task_id, e.summary)) =
            ths.enum.map (fun p => (EventType.ThoughtLog, some tid, p.2)) ∧
          evApi.event_type = EventType.ApiCall ∧ evApi.task_id = some tid ∧
          evDone.event_type = EventType.TaskCompleted ∧ evDone.task_id = some tid ∧
          evDone.details = some result) ∧
        sent = (ths.enum.map (fun p =>
            [TaskEvent.ThoughtLog tid p.2,
             TaskEvent.Progress tid ("Processing: " ++ p.2)
               (progress_pct (p.1 + 1) ths.length)])).flatten ++
          [TaskEvent.ApiCall tid "/v1/chat/completions" 1200,
           TaskEvent.Completed tid result] := by
  intro t' s' sent hr
  simp only [simulate_execution] at hr
  obtain ⟨hmem, hidt⟩ := get_task_ok hT
  split at hr
  next e heq => rw [hT] at heq; cases heq
  next task heq =>
    rw [hT] at heq
    injection heq with heq2
    subst heq2
    split at hr
    next e heq3 => exact absurd heq3 (update_task_ne_error hmem rfl)
    next p heq3 =>
      obtain ⟨rfl, rfl⟩ := update_task_ok heq3
      split at hr
      next hG => exact Option.noConfusion hr
      next ths hG =>
        split at hr
        next hR => exact Option.noConfusion hr
        next result hR =>
          split at hr
          next e heq4 =>
            exact absurd heq4 (update_task_ne_error (x :=
              { t with status := TaskStatus.Running, started_at := some s.clock })
              (by simp only [bump_clock_tasks, add_event_tasks, bump_id_tasks,
                    thought_loop_tasks, replace_task]
                  exact List.mem_map.mpr ⟨t, hmem, by simp⟩) rfl)
          next p2 heq4 =>
            obtain ⟨rfl, rfl⟩ := update_task_ok heq4
            split at hr
            next e heq5 =>
              exact (get_agent_error_absurd hA
                (by simp only [bump_clock_agents, add_event_agents, bump_id_agents,
                      thought_loop_agents, replace_task_agents]) heq5).elim
            next agent2 heq5 =>
              have hba := get_agent_ok_eq hA
                (by simp only [bump_clock_agents, add_event_agents, bump_id_agents,
                      thought_loop_agents, replace_task_agents]) heq5
              subst hba
              split at hr
              next e heq6 =>
                exact absurd heq6 (update_agent_ne_error (x := agent2)
                  (by simp only [bump_clock_agents, add_event_agents, bump_id_agents,
                        thought_loop_agents, replace_task_agents]
                      exact (get_agent_ok hA).1) rfl)
              next p3 heq6 =>
                obtain ⟨rfl, rfl⟩ := update_agent_ok heq6
                injection hr with hr2
                injection hr2 with hExc hRest
                injection hRest with hSt hSent
                injection hExc with hTask
                subst hTask
                subst hSt
                subst hSent
                have h5 : ths.length = 5 := generate_mock_thoughts_length hG
                set q := thought_loop t.agent_id tid ths.length (replace_task (bump_clock s) { t with status := TaskStatus.Running, started_at := some s.clock }) ths.enum with hq
                set e1 := ((ActivityEvent.new q.1.next_id t.agent_id EventType.ApiCall
                  "Called LLM API for response generation"
                  (bump_id q.1).clock).with_task tid).with_details
                  "POST /v1/chat/completions - 200 OK (1.2s)" with he1
                set z := add_event (bump_clock (bump_id q.1)) e1 with hz
                set t3 := { t with status := TaskStatus.Completed, started_at := some s.clock, completed_at := some z.clock, result := some result } with ht3
                set s8 := replace_task (bump_clock z) t3 with hs8
                set a2v := { agent2 with status := AgentStatus.Idle, current_task_id := none, last_activity := some s8.clock, stats := { agent2.stats with tasks_completed := agent2.stats.tasks_completed + 1, total_api_calls := agent2.stats.total_api_calls + 1, estimated_cost_cents := agent2.stats.estimated_cost_cents + 5 } } with ha2v
                set w := replace_agent (bump_clock s8) a2v with hw
                set e2 := ((ActivityEvent.new w.next_id t.agent_id EventType.TaskCompleted
                  ("Task completed: " ++ t3.title) (bump_id w).clock).with_task
                  tid).with_details result with he2
                obtain ⟨pre2, lth, hq_ev, hq_map⟩ :=
                  thought_loop_suffix t.agent_id tid ths.length ths.enum
                    (replace_task (bump_clock s) { t with status := TaskStatus.Running, started_at := some s.clock })
                    s.events [] (by simp [replace_task]) (by
                      simp only [List.length_nil, List.enum_length, h5, Nat.zero_add]
                      decide)
                rw [← hq] at hq_ev
                simp only [List.nil_append] at hq_ev
                have hlth : lth.length = 5 := by
                  have hc := congrArg List.length hq_map
                  simp only [List.length_map, List.enum_length, h5] at hc
                  exact hc
                have hE : EVENT_CAP = 1000 := rfl
                obtain ⟨pre3, hev3⟩ := add_event_suffix (e := e1)
                  (show (bump_clock (bump_id q.1)).events = pre2 ++ lth from hq_ev)
                  (by omega)
                rw [← hz] at hev3
                obtain ⟨pre4, hev4⟩ := add_event_suffix (e := e2)
                  (show (bump_clock (bump_id w)).events = pre3 ++ (lth ++ [e1]) from by
                    rw [hw, hs8]
                    simpa using hev3)
                  (by simp only [List.length_append, List.length_singleton]; omega)
                refine ⟨ths, result, hG, hR, rfl, rfl, ⟨_, rfl⟩, rfl, rfl, rfl, rfl,
                  ?_, ?_, ?_, ?_⟩
                · refine get_task_from_map s.tasks ?_ hmem rfl hidt.symm
                  rw [hw]
                  simp only [add_event_tasks, bump_clock_tasks, bump_id_tasks,
                    replace_agent_tasks]
                  rw [hs8]
                  simp only [replace_task, bump_clock_tasks, add_event_tasks]
                  rw [hz]
                  simp only [add_event_tasks, bump_clock_tasks, bump_id_tasks]
                  rw [hq]
                  simp only [thought_loop_tasks]
                  simp only [replace_task, bump_clock_tasks]
                  rw [List.map_map]
                  refine List.map_congr_left ?_
                  intro y hy
                  by_cases hc : y.id = t.id
                  · simp [Function.comp, hc, ht3]
                  · simp [Function.comp, hc, ht3]
                · refine ⟨a2v, ?_, by rw [ha2v], by rw [ha2v], by rw [ha2v],
                    by rw [ha2v], by rw [ha2v]⟩
                  refine get_agent_from_map s.agents ?_ (get_agent_ok hA).1 rfl
                    ((get_agent_ok hA).2).symm
                  simp only [add_event_agents, bump_clock_agents, bump_id_agents]
                  rw [hw]
                  simp only [replace_agent, bump_clock_agents]
                  rw [hs8]
                  simp only [replace_task, bump_clock_agents, add_event_agents]
                  rw [hz]
                  simp only [add_event_agents, bump_clock_agents, bump_id_agents]
                  rw [hq]
                  simp only [thought_loop_agents]
                  simp only [replace_task, bump_clock_agents]
                · refine ⟨pre4, lth, e1, e2, ?_, hq_map, ?_, ?_, ?_, ?_, ?_⟩
                  · rw [hev4]
                    simp [List.append_assoc]
                  · rw [he1]; rfl
                  · rw [he1]; rfl
                  · rw [he2]; rfl
                  · rw [he2]; rfl
                  · rw [he2]; rfl
                · rw [hq, thought_loop_sent]
                  simp [List.append_assoc]


theorem get_agent_error_transport {s w : Storage} {i : Nat} {e : StorageError}
    (hw : w.agents = s.agents) (h : get_agent w i = .error e) :
    get_agent s i = .error e := by
  rw [← get_agent_congr hw]
  exact h

/-- The failure cases of `simulate_execution`: it returns `Err` only when the task id or
the owning agent id is not in the store (task_dispatch.rs:132,194). -/
theorem simulate_execution_error_shape (s : Storage) (tid : Nat) :
    ∀ e s' sent, simulate_execution s tid = some (.error e, s', sent) →
      get_task s tid = .error (StorageError.NotFound "task") ∨
      ∃ t, get_task s tid = .ok t ∧
        get_agent s t.agent_id = .error (StorageError.NotFound "agent") := by
  intro e s' sent hr
  simp only [simulate_execution] at hr
  split at hr
  next e0 heq =>
    cases get_task_error heq
    exact Or.inl heq
  next task heq =>
    obtain ⟨hmem, hidt⟩ := get_task_ok heq
    split at hr
    next e1 heq3 => exact absurd heq3 (update_task_ne_error hmem rfl)
    next p heq3 =>
      obtain ⟨rfl, rfl⟩ := update_task_ok heq3
      split at hr
      next hG => exact Option.noConfusion hr
      next ths hG =>
        split at hr
        next hR => exact Option.noConfusion hr
        next result hR =>
          split at hr
          next e2 heq4 =>
            exact absurd heq4 (update_task_ne_error (x :=
              { task with status := TaskStatus.Running, started_at := some s.clock })
              (by simp only [bump_clock_tasks, add_event_tasks, bump_id_tasks,
                    thought_loop_tasks, replace_task]
                  exact List.mem_map.mpr ⟨task, hmem, by simp⟩) rfl)
          next p2 heq4 =>
            obtain ⟨rfl, rfl⟩ := update_task_ok heq4
            split at hr
            next e3 heq5 =>
              cases get_agent_error heq5
              refine Or.inr ⟨task, heq, ?_⟩
              exact get_agent_error_transport
                (by simp only [bump_clock_agents, add_event_agents, bump_id_agents,
                      thought_loop_agents, replace_task_agents]) heq5
            next agent2 heq5 =>
              split at hr
              next e4 heq6 =>
                exact absurd heq6 (update_agent_ne_error (x := agent2)
                  (get_agent_ok heq5).1 rfl)
              next p3 heq6 =>
                obtain ⟨rfl, rfl⟩ := update_agent_ok heq6
                injection hr with hr2
                injection hr2 with hExc hRest
                exact Except.noConfusion hExc


/-- The observable behaviour of a successful `fail_task` call
(task_dispatch.rs:225-262). -/
theorem fail_task_ok_shape (s : Storage) (tid : Nat) (t : Task) (a : Agent)
    (hT : get_task s tid = .ok t) (hA : get_agent s t.agent_id = .ok a) :
    ∀ msg t2 s2 sent, fail_task s tid msg = (.ok t2, s2, sent) →
      t2.status = TaskStatus.Failed ∧ t2.completed_at = some s.clock ∧
      t2.error = some msg ∧ t2.id = t.id ∧
      ∃ a2, get_agent s2 t.agent_id = .ok a2 ∧ a2.status = AgentStatus.Error ∧
        a2.current_task_id = none ∧
        a2.stats.tasks_failed = a.stats.tasks_failed + 1 := by
  intro msg t2 s2 sent hr
  simp only [fail_task] at hr
  obtain ⟨hmem, hidt⟩ := get_task_ok hT
  split at hr
  next e heq => rw [hT] at heq; cases heq
  next task heq =>
    rw [hT] at heq
    injection heq with heq2
    subst heq2
    split at hr
    next e heq3 => exact absurd heq3 (update_task_ne_error hmem rfl)
    next p heq3 =>
      obtain ⟨rfl, rfl⟩ := update_task_ok heq3
      split at hr
      next e heq5 =>
        exact (get_agent_error_absurd hA
          (by simp only [bump_clock_agents, replace_task_agents]) heq5).elim
      next agent2 heq5 =>
        have hba := get_agent_ok_eq hA
          (by simp only [bump_clock_agents, replace_task_agents]) heq5
        subst hba
        split at hr
        next e heq6 =>
          exact absurd heq6 (update_agent_ne_error (x := agent2)
            (get_agent_ok heq5).1 rfl)
        next p3 heq6 =>
          obtain ⟨rfl, rfl⟩ := update_agent_ok heq6
          injection hr with h1 hrest
          injection hrest with h2 h3
          injection h1 with ht2
          subst ht2
          subst h2
          subst h3
          refine ⟨rfl, rfl, rfl, rfl, ?_⟩
          set a2v := { agent2 with status := AgentStatus.Error, current_task_id := none, last_activity := some (replace_task (bump_clock s) { t with status := TaskStatus.Failed, completed_at := some s.clock, error := some msg }).clock, stats := { agent2.stats with tasks_failed := agent2.stats.tasks_failed + 1 } } with ha2v
          refine ⟨a2v, ?_, by rw [ha2v], by rw [ha2v], by rw [ha2v]⟩
          refine get_agent_from_map s.agents ?_ (get_agent_ok hA).1 (by rw [ha2v])
            (by rw [ha2v]; exact ((get_agent_ok hA).2).symm)
          rw [ha2v]
          simp only [add_event_agents, bump_clock_agents, bump_id_agents, replace_agent,
            replace_task_agents]

/-! ## Claim theorems -/

/-- C1 (counterexample): the claimed invariant does not survive `pause_agent`.
Starting from a store reached by a legitimate dispatch — where the invariant holds —
pausing the running agent succeeds and leaves `current_task_id = some 0` while the
status becomes Paused, so the invariant is false afterwards. -/
theorem C1_pause_breaks_invariant :
    Inv fx_store1 ∧
    pause_agent fx_store1 0 = (.ok fx_agent_paused, fx_store_paused, []) ∧
    ¬ Inv fx_store_paused :=
  ⟨by decide, rfl, by decide⟩

/-- C1 (amended): after every Dispatcher operation except `pause` — dispatch, execute,
fail, cancel, resume, reset — every agent satisfies: `current_task_id` is `Some` only
with status Running and references an existing task with matching `agent_id`, provided
the invariant held before the call and stored task ids are unique (as the store
guarantees).  `pause_agent` on a Running agent violates it (see the counterexample). -/
theorem C1_invariant_preserved_except_pause (s : Storage)
    (hInv : Inv s) (hnd : (s.tasks.map Task.id).Nodup) :
    (∀ q, Inv (dispatch s q).2.1) ∧
    (∀ tid r, simulate_execution s tid = some r → Inv r.2.1) ∧
    (∀ tid msg, Inv (fail_task s tid msg).2.1) ∧
    (∀ tid, Inv (cancel_task s tid).2.1) ∧
    (∀ aid, Inv (resume_agent s aid).2.1) ∧
    (∀ aid, Inv (reset_agent s aid).2.1) :=
  ⟨fun q => dispatch_inv s q hInv,
   fun tid r hr => simulate_execution_inv s tid hnd hInv r hr,
   fun tid msg => fail_task_inv s tid msg hnd hInv,
   fun tid => cancel_task_inv s tid hnd hInv,
   fun aid => resume_agent_inv s aid hInv,
   fun aid => reset_agent_inv s aid hInv⟩

theorem C1_invariant_witness :
    Inv fx_store1 ∧ (fx_store1.tasks.map Task.id).Nodup ∧
    Inv (cancel_task fx_store1 0).2.1 ∧ Inv (reset_agent fx_store1 0).2.1 := by
  have h := C1_invariant_preserved_except_pause fx_store1 (by decide) (by decide)
  exact ⟨by decide, by decide, h.2.2.2.1 0, h.2.2.2.2.2 0⟩

/-- C3: dispatching to an agent whose status is Running fails with AgentNotAvailable
and returns the store completely unchanged (task_dispatch.rs:71-75 rejects before any
write). -/
theorem C3_dispatch_busy_rejected (s : Storage) (q : DispatchTaskRequest) (a : Agent)
    (hA : get_agent s q.agent_id = .ok a) (hrun : a.status = AgentStatus.Running) :
    dispatch s q =
      (.error (DispatchError.AgentNotAvailable "Agent is already running a task"),
        s, []) := by
  simp [dispatch, hA, hrun]

theorem C3_dispatch_busy_witness :
    dispatch fx_store1 fx_req =
      (.error (DispatchError.AgentNotAvailable "Agent is already running a task"),
        fx_store1, []) :=
  C3_dispatch_busy_rejected fx_store1 fx_req fx_agent_running rfl rfl

/-- C4: dispatching with an empty or whitespace-only instruction (to an existing,
not-Running agent) fails before any task is created — the store is returned unchanged —
and the error is the code's `InvalidTask` variant, the realization of the spec's
InvalidInput taxonomy kind (task_dispatch.rs:82-86). -/
theorem C4_dispatch_blank_instruction_rejected (s : Storage) (q : DispatchTaskRequest)
    (a : Agent) (hA : get_agent s q.agent_id = .ok a) (h : a.status ≠ AgentStatus.Running)
    (hws : trim_is_empty q.instruction = true) :
    dispatch s q =
      (.error (DispatchError.InvalidTask "Task instruction cannot be empty"), s, []) ∧
    (DispatchError.InvalidTask "Task instruction cannot be empty").is_invalid_input_kind
      = true := by
  refine ⟨?_, rfl⟩
  simp [dispatch, hA, hws, h]

theorem C4_dispatch_blank_instruction_witness :
    dispatch fx_store0 fx_ws_req =
      (.error (DispatchError.InvalidTask "Task instruction cannot be empty"),
        fx_store0, []) ∧
    (DispatchError.InvalidTask "Task instruction cannot be empty").is_invalid_input_kind
      = true :=
  C4_dispatch_blank_instruction_rejected fx_store0 fx_ws_req fx_agent rfl
    (by decide) rfl

/-- C5: `cancel_task` on a Completed/Failed/Cancelled task fails with the code's
`InvalidTask` error (the realization of the spec's InvalidInput kind) and returns the
store — hence the task record — unchanged; and whenever `cancel_task` succeeds, the
task's prior status was Pending or Running (task_dispatch.rs:269-273). -/
theorem C5_cancel_terminal_rejected (s : Storage) (tid : Nat) :
    (∀ t, get_task s tid = .ok t →
      (t.status = TaskStatus.Completed ∨ t.status = TaskStatus.Failed ∨
        t.status = TaskStatus.Cancelled) →
      cancel_task s tid =
        (.error (DispatchError.InvalidTask "Can only cancel pending or running tasks"),
          s, []) ∧
      (DispatchError.InvalidTask
        "Can only cancel pending or running tasks").is_invalid_input_kind = true) ∧
    (∀ u s2 evs, cancel_task s tid = (.ok u, s2, evs) →
      ∃ t, get_task s tid = .ok t ∧
        (t.status = TaskStatus.Pending ∨ t.status = TaskStatus.Running)) := by
  constructor
  · intro t hT hterm
    refine ⟨?_, rfl⟩
    simp only [cancel_task, hT]
    rw [if_pos ?_]
    · rcases hterm with h | h | h <;> exact ⟨by simp [h], by simp [h]⟩
  · intro u s2 evs hC
    simp only [cancel_task] at hC
    split at hC
    next e heq =>
      injection hC with h1 _
      exact Except.noConfusion h1
    next t heq =>
      split at hC
      next hcond =>
        injection hC with h1 _
        exact Except.noConfusion h1
      next hcond =>
        refine ⟨t, heq, ?_⟩
        by_cases hR : t.status = TaskStatus.Running
        · exact Or.inr hR
        · refine Or.inl ?_
          by_contra hP
          exact hcond ⟨hR, hP⟩

theorem C5_cancel_terminal_witness :
    (cancel_task fx_store2 0 =
      (.error (DispatchError.InvalidTask "Can only cancel pending or running tasks"),
        fx_store2, [])) ∧
    (∃ t, get_task fx_store1 0 = .ok t ∧
      (t.status = TaskStatus.Pending ∨ t.status = TaskStatus.Running)) := by
  refine ⟨((C5_cancel_terminal_rejected fx_store2 0).1 fx_task_done rfl
    (Or.inl rfl)).1, ?_⟩
  exact (C5_cancel_terminal_rejected fx_store1 0).2 fx_task_cancelled
    fx_store_cancelled [] rfl

/-- C6: the Execution Pipeline's pure helpers are not panic-free.  `truncate`
byte-slices at position 50; on an instruction whose 50th byte falls inside a multi-byte
character the slice panics (modelled as `none`), so `generate_mock_thoughts` — and an
`execute` on a task carrying such an instruction — abort.  The instruction passes
dispatch validation (it is non-blank), so the panic is reachable. -/
theorem C6_pipeline_panics :
    byte_len fx_bad_instruction = 51 ∧
    truncate fx_bad_instruction 50 = none ∧
    generate_mock_thoughts fx_bad_instruction = none ∧
    trim_is_empty fx_bad_instruction = false ∧
    (dispatch fx_store0 fx_bad_req).1 =
      .ok { task := { fx_task with title := "T", instruction := fx_bad_instruction },
            message := "Task dispatched successfully" } ∧
    simulate_execution fx_bad_store1 0 = none :=
  ⟨by decide, by decide, by decide, by decide, rfl, rfl⟩

/-- C8: the store never holds more than 1000 events and `add_event` evicts FIFO:
appending to a store at the 1000-event cap drops exactly the oldest event, below the
cap it appends, and inserting 1001 events into an empty store leaves exactly the last
1000 (the first-inserted event is evicted). -/
theorem C8_event_retention :
    (∀ (s : Storage) (e : ActivityEvent), s.events.length ≤ 1000 →
      (add_event s e).events.length ≤ 1000 ∧
      (s.events.length < 1000 → (add_event s e).events = s.events ++ [e]) ∧
      (s.events.length = 1000 → (add_event s e).events = s.events.drop 1 ++ [e])) ∧
    (∀ (l : List ActivityEvent) (s : Storage), s.events = [] → l.length = 1001 →
      (l.foldl add_event s).events = l.drop 1 ∧
      (l.foldl add_event s).events.length = 1000) := by
  have hE : EVENT_CAP = 1000 := rfl
  constructor
  · intro s e hs
    refine ⟨?_, ?_, ?_⟩
    · rw [add_event_events]
      simp only [List.length_drop, List.length_append, List.length_singleton]
      omega
    · intro hlt
      rw [add_event_events, show s.events.length + 1 - EVENT_CAP = 0 from by omega]
      exact List.drop_zero _
    · intro h1000
      rw [add_event_events, show s.events.length + 1 - EVENT_CAP = 1 from by omega]
      exact List.drop_append_of_le_length (by omega)
  · intro l s hs hlen
    have hq := foldl_add_event l s (by rw [hs]; simp only [List.length_nil]; exact Nat.zero_le _)
    rw [hq, hs]
    simp only [List.nil_append, List.length_nil, Nat.zero_add, hlen]
    rw [show 1001 - EVENT_CAP = 1 from by omega]
    exact ⟨rfl, by simp [List.length_drop, hlen]⟩

theorem C8_event_retention_witness :
    ((List.replicate 1001 fx_event).foldl add_event ({} : Storage)).events =
      (List.replicate 1001 fx_event).drop 1 ∧
    (add_event fx_store0 fx_event).events.length ≤ 1000 := by
  have h := C8_event_retention
  exact ⟨(h.2 (List.replicate 1001 fx_event) {} rfl (List.length_replicate 1001 fx_event)).1,
    (h.1 fx_store0 fx_event (by decide)).1⟩


/-- C2 (amended): a RETURNING execute on a Pending/Running task — one that does not
hit the truncate byte-slice panic exhibited by the C2 counterexample: on the success
path the task ends Completed
with `completed_at` and `result` set, and the owning agent ends Idle with
`current_task_id` cleared and `stats.tasks_completed` incremented by one; on the
failure path (`fail_task`) the task ends Failed with `completed_at` and `error` set and
the agent ends Error with `current_task_id` cleared. -/
theorem C2_execute_outcome (s : Storage) (tid : Nat) (t : Task) (a : Agent)
    (hT : get_task s tid = .ok t)
    (hst : t.status = TaskStatus.Pending ∨ t.status = TaskStatus.Running)
    (hA : get_agent s t.agent_id = .ok a) :
    (∀ t' s' sent, simulate_execution s tid = some (.ok t', s', sent) →
      t'.status = TaskStatus.Completed ∧ t'.completed_at.isSome = true ∧
      (∃ r, t'.result = some r) ∧
      ∃ a2, get_agent s' t.agent_id = .ok a2 ∧ a2.status = AgentStatus.Idle ∧
        a2.current_task_id = none ∧
        a2.stats.tasks_completed = a.stats.tasks_completed + 1) ∧
    (∀ msg t2 s2 sent, fail_task s tid msg = (.ok t2, s2, sent) →
      t2.status = TaskStatus.Failed ∧ t2.completed_at.isSome = true ∧
      t2.error = some msg ∧
      ∃ a2, get_agent s2 t.agent_id = .ok a2 ∧ a2.status = AgentStatus.Error ∧
        a2.current_task_id = none) := by
  constructor
  · intro t' s' sent hr
    obtain ⟨ths, res, hG, hR, hstat, hstart, ⟨c, hc⟩, hres, hid, hagid, hins, hget,
      ⟨a2, hga, hidle, hnone, htc, hac, haid⟩, hevents, hsent⟩ :=
      simulate_execution_ok_shape s tid t a hT hA t' s' sent hr
    exact ⟨hstat, by rw [hc]; rfl, ⟨res, hres⟩, a2, hga, hidle, hnone, htc⟩
  · intro msg t2 s2 sent hr
    obtain ⟨hstat, hcomp, herr, hid, a2, hga, herrst, hnone, htf⟩ :=
      fail_task_ok_shape s tid t a hT hA msg t2 s2 sent hr
    exact ⟨hstat, by rw [hcomp]; rfl, herr, a2, hga, herrst, hnone⟩

theorem C2_execute_witness :
    fx_task.status = TaskStatus.Pending ∧
    fx_task_done.status = TaskStatus.Completed ∧
    fx_task_done.completed_at.isSome = true ∧
    get_agent fx_store2 0 = .ok fx_agent_done ∧
    fx_agent_done.status = AgentStatus.Idle ∧
    fx_agent_done.current_task_id = none ∧
    fx_agent_done.stats.tasks_completed = 1 ∧
    fx_task_done.result = some "Analysis complete. Key findings:\n1. Identified 3 areas for improvement\n2. Performance metrics within acceptable range\n3. Recommendations documented for follow-up" := by
  have h := (C2_execute_outcome fx_store1 0 fx_task fx_agent_running rfl (Or.inl rfl)
    rfl).1 fx_task_done fx_store2 fx_run.2.2 rfl
  obtain ⟨a2, hga, hidle, hnone, htc⟩ := h.2.2.2
  have hfix : (.ok a2 : Except StorageError Agent) = .ok fx_agent_done := by
    rw [← hga]
    rfl
  injection hfix with hfix2
  subst hfix2
  exact ⟨rfl, h.1, h.2.1, hga, hidle, hnone, htc, rfl⟩

/-- C2 (counterexample): the frozen claim is not universal.  Task 0 of
`fx_bad_store1` is Pending and its owning agent resolves, yet `execute` on it hits
the `truncate` byte-slice panic (modelled as `none`): the run never returns, the task
is left unfinished, and so it does not end Completed or Failed with `completed_at`
set. -/
theorem C2_panic_run_bypasses_outcome :
    get_task fx_bad_store1 0 =
      .ok { fx_task with title := "T", instruction := fx_bad_instruction } ∧
    Task.status ({ fx_task with title := "T", instruction := fx_bad_instruction }) =
      TaskStatus.Pending ∧
    get_agent fx_bad_store1 0 = .ok fx_agent_running ∧
    simulate_execution fx_bad_store1 0 = none :=
  ⟨rfl, rfl, rfl, rfl⟩


theorem progress_values_app (l1 l2 : List TaskEvent) :
    progress_values (l1 ++ l2) = progress_values l1 ++ progress_values l2 :=
  List.filterMap_append l1 l2 _

theorem thought_values_app (l1 l2 : List TaskEvent) :
    thought_values (l1 ++ l2) = thought_values l1 ++ thought_values l2 :=
  List.filterMap_append l1 l2 _

theorem progress_values_flatten (tid n : Nat) (l : List (Nat × String)) :
    progress_values ((l.map (fun p => [TaskEvent.ThoughtLog tid p.2,
      TaskEvent.Progress tid ("Processing: " ++ p.2) (progress_pct (p.1 + 1) n)])).flatten)
    = l.map (fun p => progress_pct (p.1 + 1) n) := by
  induction l with
  | nil => rfl
  | cons p rest ih =>
    obtain ⟨i, th⟩ := p
    simp only [List.map_cons, List.flatten_cons]
    rw [progress_values_app, ih]
    rfl

theorem thought_values_flatten (tid n : Nat) (l : List (Nat × String)) :
    thought_values ((l.map (fun p => [TaskEvent.ThoughtLog tid p.2,
      TaskEvent.Progress tid ("Processing: " ++ p.2) (progress_pct (p.1 + 1) n)])).flatten)
    = l.map (fun p => p.2) := by
  induction l with
  | nil => rfl
  | cons p rest ih =>
    obtain ⟨i, th⟩ := p
    simp only [List.map_cons, List.flatten_cons]
    rw [thought_values_app, ih]
    rfl

/-- C7 (counterexample): executing an already-Cancelled task persists events for it.
Task 0 of `fx_store_cancelled` is Cancelled; `simulate_execution` nevertheless succeeds,
re-marks it Completed, and the post store holds 5 ThoughtLog events for task 0. -/
theorem C7_cancelled_task_events_persisted :
    fx_task_cancelled.status = TaskStatus.Cancelled ∧
    simulate_execution fx_store_cancelled 0 =
      some (.ok fx_cx_task, fx_cx_store, fx_cx_run.2.2) ∧
    fx_cx_task.status = TaskStatus.Completed ∧
    (fx_cx_store.events.filter (fun e => e.event_type == EventType.ThoughtLog &&
      e.task_id == some 0)).length = 5 :=
  ⟨rfl, rfl, rfl, rfl⟩

/-- C7 (amended): `simulate_execution` never re-checks the stored task's status: even
for a task already transitioned to Cancelled, a successful run re-marks it Completed
and persists the full simulated event sequence — five ThoughtLog events for the task,
one ApiCall event and one TaskCompleted event. -/
theorem C7_no_cancellation_check (s : Storage) (tid : Nat) (t : Task) (a : Agent)
    (hT : get_task s tid = .ok t) (hc : t.status = TaskStatus.Cancelled)
    (hA : get_agent s t.agent_id = .ok a) :
    ∀ t' s' sent, simulate_execution s tid = some (.ok t', s', sent) →
      t'.status = TaskStatus.Completed ∧
      ∃ pre lth evApi evDone, s'.events = pre ++ (lth ++ [evApi, evDone]) ∧
        lth.length = 5 ∧
        (∀ e ∈ lth, e.event_type = EventType.ThoughtLog ∧ e.task_id = some tid) ∧
        evApi.event_type = EventType.ApiCall ∧ evApi.task_id = some tid ∧
        evDone.event_type = EventType.TaskCompleted ∧ evDone.task_id = some tid := by
  intro t' s' sent hr
  obtain ⟨ths, res, hG, hR, hstat, _, _, _, _, _, _, _, _,
    ⟨pre, lth, eA, eD, hev, hmap, hA1, hA2, hD1, hD2, hD3⟩, _⟩ :=
    simulate_execution_ok_shape s tid t a hT hA t' s' sent hr
  have h5 := generate_mock_thoughts_length hG
  have hlen : lth.length = 5 := by
    have hc2 := congrArg List.length hmap
    simpa [h5] using hc2
  refine ⟨hstat, pre, lth, eA, eD, hev, hlen, ?_, hA1, hA2, hD1, hD2⟩
  intro e he
  have hmem2 : (e.event_type, e.task_id, e.summary) ∈
      lth.map (fun e => (e.event_type, e.task_id, e.summary)) :=
    List.mem_map_of_mem _ he
  rw [hmap] at hmem2
  obtain ⟨p, hp, heqq⟩ := List.mem_map.mp hmem2
  injection heqq with h1 hrest
  injection hrest with h2 h3
  exact ⟨h1.symm, h2.symm⟩

theorem C7_no_cancellation_witness :
    fx_task_cancelled.status = TaskStatus.Cancelled ∧
    fx_cx_task.status = TaskStatus.Completed := by
  have h := C7_no_cancellation_check fx_store_cancelled 0 fx_task_cancelled
    fx_agent_cancelled rfl rfl rfl fx_cx_task fx_cx_store fx_cx_run.2.2 rfl
  exact ⟨rfl, h.1⟩

/-- C9 (amended): a SUCCESSFUL execution — one not aborted by the thought generator's
truncation panic exhibited by the C9 counterexample — emits exactly 5 thought
strings; each is broadcast as a
ThoughtLog plus a Progress notification and persisted as a ThoughtLog event, and the
reported progress of thought step i of 5 is `round(i/5 * 80)` — the values 16, 32, 48,
64, 80, all within 0-80. -/
theorem C9_thought_progress (s : Storage) (tid : Nat) (t : Task) (a : Agent)
    (hT : get_task s tid = .ok t) (hA : get_agent s t.agent_id = .ok a) :
    (∀ ths, generate_mock_thoughts t.instruction = some ths → ths.length = 5) ∧
    (∀ t' s' sent, simulate_execution s tid = some (.ok t', s', sent) →
      ∃ ths, generate_mock_thoughts t.instruction = some ths ∧ ths.length = 5 ∧
        progress_values sent = (List.range 5).map (fun i => spec_round_pct (i + 1) 5) ∧
        thought_values sent = ths ∧
        (∀ p ∈ progress_values sent, p ≤ 80) ∧
        ∃ pre lth evApi evDone, s'.events = pre ++ (lth ++ [evApi, evDone]) ∧
          lth.map (fun e => (e.event_type, e.task_id, e.summary)) =
            ths.map (fun th => (EventType.ThoughtLog, some tid, th))) := by
  refine ⟨fun ths h => generate_mock_thoughts_length h, ?_⟩
  intro t' s' sent hr
  obtain ⟨ths, res, hG, hR, _, _, _, _, _, _, _, _, _,
    ⟨pre, lth, eA, eD, hev, hmap, _, _, _, _, _⟩, hsent⟩ :=
    simulate_execution_ok_shape s tid t a hT hA t' s' sent hr
  have h5 := generate_mock_thoughts_length hG
  have hpv : progress_values sent =
      (List.range 5).map (fun i => progress_pct (i + 1) 5) := by
    rw [hsent, progress_values_app, progress_values_flatten]
    rw [show progress_values [TaskEvent.ApiCall tid "/v1/chat/completions" 1200,
      TaskEvent.Completed tid res] = [] from rfl, List.append_nil]
    rw [h5]
    calc ths.enum.map (fun p => progress_pct (p.1 + 1) 5)
        = (ths.enum.map Prod.fst).map (fun i => progress_pct (i + 1) 5) := by
          rw [List.map_map]
          rfl
      _ = (List.range 5).map (fun i => progress_pct (i + 1) 5) := by
          rw [List.enum_map_fst, h5]
  have htv : thought_values sent = ths := by
    rw [hsent, thought_values_app, thought_values_flatten]
    rw [show thought_values [TaskEvent.ApiCall tid "/v1/chat/completions" 1200,
      TaskEvent.Completed tid res] = [] from rfl, List.append_nil]
    exact List.enum_map_snd ths
  refine ⟨ths, hG, h5, ?_, htv, ?_, pre, lth, eA, eD, hev, ?_⟩
  · rw [hpv]
    decide
  · intro p hp
    rw [hpv] at hp
    have hall : ∀ p ∈ (List.range 5).map (fun i => progress_pct (i + 1) 5), p ≤ 80 := by
      decide
    exact hall p hp
  · rw [hmap]
    calc ths.enum.map (fun p => (EventType.ThoughtLog, some tid, p.2))
        = (ths.enum.map Prod.snd).map (fun th => (EventType.ThoughtLog, some tid, th)) := by
          rw [List.map_map]
          rfl
      _ = ths.map (fun th => (EventType.ThoughtLog, some tid, th)) := by
          rw [List.enum_map_snd]

theorem C9_thought_progress_witness :
    progress_values fx_run.2.2 = [16, 32, 48, 64, 80] ∧
    thought_values fx_run.2.2 =
      ["Analyzing task: Please analyze this module",
       "Identifying key concepts: Please, analyze, this, module",
       "Formulating approach based on context...",
       "Gathering relevant information...",
       "Synthesizing response..."] := by
  have h := (C9_thought_progress fx_store1 0 fx_task fx_agent_running rfl rfl).2
    fx_task_done fx_store2 fx_run.2.2 rfl
  obtain ⟨ths, hG, h5, hpv, htv, hle, _⟩ := h
  constructor
  · rw [hpv]
    decide
  · rw [htv]
    have h2 : generate_mock_thoughts fx_task.instruction =
        some ["Analyzing task: Please analyze this module",
          "Identifying key concepts: Please, analyze, this, module",
          "Formulating approach based on context...",
          "Gathering relevant information...",
          "Synthesizing response..."] := rfl
    rw [hG] at h2
    injection h2 with h3

/-- C9 (counterexample): the frozen claim is not universal.  On the dispatched task
carrying `fx_bad_instruction`, the thought generator itself panics in its 50-byte
truncation (modelled as `none`), so `execute` aborts and zero thought strings are
emitted, persisted, or broadcast — not 5. -/
theorem C9_panic_emits_no_thoughts :
    get_task fx_bad_store1 0 =
      .ok { fx_task with title := "T", instruction := fx_bad_instruction } ∧
    generate_mock_thoughts fx_bad_instruction = none ∧
    simulate_execution fx_bad_store1 0 = none :=
  ⟨rfl, by decide, rfl⟩

/-- C10 (amended): `simulate_execution` imposes no precondition on the stored task's
status: whenever the task id and the owning agent id resolve, a RETURNING run — one
not aborted by the truncate panic exhibited by the C10 counterexample — succeeds and
re-marks the task Running (`started_at` set) and then Completed — even for a terminal
task — and an `Err` return happens only when the task id or the owning agent id is not
found. -/
theorem C10_execute_no_precondition (s : Storage) (tid : Nat) :
    (∀ t a, get_task s tid = .ok t → get_agent s t.agent_id = .ok a →
      ∀ r, simulate_execution s tid = some r →
        ∃ t' s' sent, r = (.ok t', s', sent) ∧ t'.status = TaskStatus.Completed ∧
          t'.started_at = some s.clock ∧ t'.completed_at.isSome = true ∧
          get_task s' tid = .ok t') ∧
    (∀ e s' sent, simulate_execution s tid = some (.error e, s', sent) →
      get_task s tid = .error (StorageError.NotFound "task") ∨
      ∃ t, get_task s tid = .ok t ∧
        get_agent s t.agent_id = .error (StorageError.NotFound "agent")) := by
  constructor
  · intro t a hT hA r hr
    obtain ⟨res, s', sent⟩ := r
    cases res with
    | error e =>
      rcases simulate_execution_error_shape s tid e s' sent hr with h1 | ⟨t0, ht0, ha0⟩
      · rw [hT] at h1; cases h1
      · rw [hT] at ht0
        injection ht0 with h2
        subst h2
        rw [hA] at ha0
        cases ha0
    | ok t' =>
      obtain ⟨ths, res2, _, _, hstat, hstart, ⟨c, hc⟩, _, _, _, _, hget, _, _, _⟩ :=
        simulate_execution_ok_shape s tid t a hT hA t' s' sent hr
      exact ⟨t', s', sent, rfl, hstat, hstart, by rw [hc]; rfl, hget⟩
  · exact simulate_execution_error_shape s tid

theorem C10_execute_no_precondition_witness :
    fx_task_done.status = TaskStatus.Completed ∧
    simulate_execution fx_store2 0 = some fx_rerun ∧
    fx_rerun.1 = .ok fx_rerun_task ∧
    fx_rerun_task.status = TaskStatus.Completed ∧
    fx_rerun_task.started_at = some fx_store2.clock := by
  have h := (C10_execute_no_precondition fx_store2 0).1 fx_task_done fx_agent_done
    rfl rfl fx_rerun rfl
  exact ⟨rfl, rfl, rfl, rfl, rfl⟩

/-- C10 (counterexample): the frozen claim is not universal.  In `fx_bad_store1` task
0 and its owning agent (id 0) both resolve, yet `simulate_execution` panics (modelled
as `none`): the run neither returns a NotFound error nor sets the task to Completed,
so execute does not "otherwise always" complete the task. -/
theorem C10_panic_run_neither_fails_nor_completes :
    get_task fx_bad_store1 0 =
      .ok { fx_task with title := "T", instruction := fx_bad_instruction } ∧
    Task.agent_id ({ fx_task with title := "T", instruction := fx_bad_instruction }) = 0 ∧
    get_agent fx_bad_store1 0 = .ok fx_agent_running ∧
    simulate_execution fx_bad_store1 0 = none :=
  ⟨rfl, rfl, rfl, rfl⟩

end AgentCC
